import Mathlib

/-!
# SmartTrainer analysis engine: formal model

Shallow embedding of the SmartTrainer pose-analysis core:

* the shared angle primitive `calculateAngle` (ExerciseAnalyzer.ts /
  BiomechanicalAnalyzer.ts / ExerciseClassifier.ts all contain the same
  three-line implementation);
* the repetition state machine `RepCounter.update` (reps/RepCounter.ts),
  generic over a linear ordered field so that rational spot checks stay
  decidable while analyzers that feed it angle-derived reals reuse it;
* the exercise classifier `classifyExercise` (ExerciseClassifier.ts);
* the orchestrator routing / locking logic of
  `GeometricRuleEngine.analyzeFrame` (GeometricRuleEngine.ts);
* the Plank and Push-Up analyzers (PlankAnalyzer.ts, PushupAnalyzer.ts).

JavaScript numbers are modelled by `ℝ` (or a generic ordered field where
the code is pure arithmetic); landmark array indexing is modelled with
`List.get?`, so a JavaScript `TypeError` from reading a property of
`undefined` shows up as `none`.  `Math.atan2` is modelled by the
piecewise-`arctan` function `atan2` below, which agrees with the JS
definition on all real inputs (JS returns `0` for `atan2(0, 0)`).
-/

namespace SmartTrainer

open Real

noncomputable section

/-! ## Definitions: Math.atan2 and the shared angle primitive -/

/-- Model of JavaScript `Math.atan2 y x`: the angle of the vector `(x, y)`
in `(-π, π]`, with `atan2 0 0 = 0` as in JS (positive zeros). -/
def atan2 (y x : ℝ) : ℝ :=
  if 0 < x then arctan (y / x)
  else if x < 0 then
    (if 0 ≤ y then arctan (y / x) + π else arctan (y / x) - π)
  else
    (if 0 < y then π / 2 else if y < 0 then -(π / 2) else 0)

/-- One MediaPipe pose landmark (PoseLandmark in ExerciseAnalyzer.ts). -/
structure PoseLandmark where
  x : ℝ
  y : ℝ
  z : ℝ
  visibility : ℝ

instance : Inhabited PoseLandmark := ⟨⟨0, 0, 0, 0⟩⟩

/-- Guarded landmark access used where the code has already checked
`landmarks.length >= 33` (JS indexing then always hits a real element). -/
def lget (lm : List PoseLandmark) (i : ℕ) : PoseLandmark :=
  lm.getD i default

/-- ExerciseAnalyzer.calculateAngle (same body in BiomechanicalAnalyzer and
ExerciseClassifier):

```
const radians = Math.atan2(c.y - b.y, c.x - b.x) - Math.atan2(a.y - b.y, a.x - b.x);
let angle = Math.abs((radians * 180.0) / Math.PI);
if (angle > 180.0) angle = 360 - angle;
return angle;
``` -/
def calculateAngle (a b c : PoseLandmark) : ℝ :=
  let radians := atan2 (c.y - b.y) (c.x - b.x) - atan2 (a.y - b.y) (a.x - b.x)
  let angle := |radians * 180 / π|
  if angle > 180 then 360 - angle else angle

/-- ExerciseClassifier.getAvgAngle: average of the left-side and
right-side joint angles. -/
def getAvgAngle (lm : List PoseLandmark) (a1 b1 c1 a2 b2 c2 : ℕ) : ℝ :=
  (calculateAngle (lget lm a1) (lget lm b1) (lget lm c1)
    + calculateAngle (lget lm a2) (lget lm b2) (lget lm c2)) / 2

/-! ## Definitions: RepCounter (reps/RepCounter.ts)

The counter is pure threshold arithmetic, so it is embedded generically
over a `LinearOrderedField`; spot checks instantiate it at `ℚ` (decidable)
and the Push-Up analyzer instantiates it at `ℝ`. -/

/-- RepPhase from reps/RepCounter.ts. -/
inductive RepPhase where
  | Rest | Eccentric | Bottom | Concentric | Top
deriving DecidableEq

/-- CountMode from reps/RepCounter.ts. -/
inductive CountMode where
  | EccentricFirst | ConcentricFirst
deriving DecidableEq

/-- RepTimestamp record `{start, mid, end}`; `end` is a Lean keyword so
the third field is called `end_`. -/
structure RepTimestamp (α : Type) where
  start : α
  mid : α
  end_ : α
deriving DecidableEq

/-- The mutable fields of a RepCounter instance. -/
structure RepState (α : Type) where
  count : ℕ
  currentPhase : RepPhase
  lastPhaseTimestamp : α
  thresholdHigh : α
  thresholdLow : α
  mode : CountMode
  repTimestamps : List (RepTimestamp α)
  currentRepStartTime : Option α
  currentRepMidTime : Option α
  recordingStartTime : α
deriving DecidableEq

variable {α : Type} [LinearOrderedField α]

/-- JS `mid || currentMs`: both `null` and `0` are falsy, so a recorded
mid time of exactly 0 also falls back to the current time. -/
def jsFalsyOr (o : Option α) (d : α) : α :=
  match o with
  | none => d
  | some m => if m = 0 then d else m

namespace RepCounter

/-- RepCounter.update (reps/RepCounter.ts lines 97-202).  `now` is the
resolved JS `timestamp ?? Date.now()`; the caller passes the supplied
timestamp or the wall clock. -/
def update (s : RepState α) (completion : α) (now : α) : RepState α :=
  let currentMs := now - s.recordingStartTime
  match s.mode with
  | CountMode.EccentricFirst =>
    match s.currentPhase with
    | RepPhase.Rest | RepPhase.Top =>
      if completion > s.thresholdLow then
        { s with currentPhase := RepPhase.Eccentric,
                 currentRepStartTime :=
                   match s.currentRepStartTime with
                   | none => some currentMs
                   | some t0 => some t0 }
      else s
    | RepPhase.Eccentric =>
      if completion ≥ s.thresholdHigh then
        { s with currentPhase := RepPhase.Bottom,
                 lastPhaseTimestamp := now,
                 currentRepMidTime := some currentMs }
      else if completion < s.thresholdLow then
        { s with currentPhase := RepPhase.Top,
                 currentRepStartTime := none,
                 currentRepMidTime := none }
      else s
    | RepPhase.Bottom =>
      if completion < s.thresholdHigh - 1 / 10 then
        { s with currentPhase := RepPhase.Concentric }
      else s
    | RepPhase.Concentric =>
      if completion ≤ s.thresholdLow then
        match s.currentRepStartTime with
        | some st =>
          { s with count := s.count + 1,
                   currentPhase := RepPhase.Top,
                   lastPhaseTimestamp := now,
                   repTimestamps := s.repTimestamps
                     ++ [⟨st, jsFalsyOr s.currentRepMidTime currentMs, currentMs⟩],
                   currentRepStartTime := none,
                   currentRepMidTime := none }
        | none =>
          { s with count := s.count + 1,
                   currentPhase := RepPhase.Top,
                   lastPhaseTimestamp := now }
      else if completion > s.thresholdHigh then
        { s with currentPhase := RepPhase.Bottom }
      else s
  | CountMode.ConcentricFirst =>
    match s.currentPhase with
    | RepPhase.Rest | RepPhase.Bottom =>
      if completion > s.thresholdLow then
        { s with currentPhase := RepPhase.Concentric,
                 currentRepStartTime :=
                   match s.currentRepStartTime with
                   | none => some currentMs
                   | some t0 => some t0 }
      else s
    | RepPhase.Concentric =>
      if completion ≥ s.thresholdHigh then
        { s with currentPhase := RepPhase.Top,
                 lastPhaseTimestamp := now,
                 currentRepMidTime := some currentMs }
      else if completion < s.thresholdLow then
        { s with currentPhase := RepPhase.Bottom,
                 currentRepStartTime := none,
                 currentRepMidTime := none }
      else s
    | RepPhase.Top =>
      if completion < s.thresholdHigh - 1 / 10 then
        { s with currentPhase := RepPhase.Eccentric }
      else s
    | RepPhase.Eccentric =>
      if completion ≤ s.thresholdLow then
        match s.currentRepStartTime with
        | some st =>
          { s with count := s.count + 1,
                   currentPhase := RepPhase.Bottom,
                   lastPhaseTimestamp := now,
                   repTimestamps := s.repTimestamps
                     ++ [⟨st, jsFalsyOr s.currentRepMidTime currentMs, currentMs⟩],
                   currentRepStartTime := none,
                   currentRepMidTime := none }
        | none =>
          { s with count := s.count + 1,
                   currentPhase := RepPhase.Bottom,
                   lastPhaseTimestamp := now }
      else if completion > s.thresholdHigh then
        { s with currentPhase := RepPhase.Top }
      else s

end RepCounter

/-- A freshly constructed RepCounter with explicit thresholds. -/
def freshRep (mode : CountMode) (low high : α) : RepState α :=
  { count := 0, currentPhase := RepPhase.Rest, lastPhaseTimestamp := 0,
    thresholdHigh := high, thresholdLow := low, mode := mode,
    repTimestamps := [], currentRepStartTime := none,
    currentRepMidTime := none, recordingStartTime := 0 }

/-- A freshly constructed RepCounter with the default thresholds
`thresholdLow = 0.35`, `thresholdHigh = 0.55`. -/
def defaultRep (mode : CountMode) : RepState α :=
  freshRep mode (35 / 100) (55 / 100)

/-- Run a sequence of `update` calls; each list entry is a
`(completion, timestamp)` pair. -/
def runPairs (s : RepState α) (l : List (α × α)) : RepState α :=
  l.foldl (fun st p => RepCounter.update st p.1 p.2) s

/-- Mirror of a phase: swaps the descending and ascending halves of the
two cycle layouts (Rest is shared, Top ↔ Bottom, Eccentric ↔ Concentric). -/
def mirrorPhase : RepPhase → RepPhase
  | RepPhase.Rest => RepPhase.Rest
  | RepPhase.Eccentric => RepPhase.Concentric
  | RepPhase.Concentric => RepPhase.Eccentric
  | RepPhase.Top => RepPhase.Bottom
  | RepPhase.Bottom => RepPhase.Top

/-- Mirror of a mode. -/
def mirrorMode : CountMode → CountMode
  | CountMode.EccentricFirst => CountMode.ConcentricFirst
  | CountMode.ConcentricFirst => CountMode.EccentricFirst

/-- Mirror of a counter state: flips the mode and mirrors the phase,
leaving counts, markers and history untouched. -/
def mirrorState (s : RepState α) : RepState α :=
  { s with currentPhase := mirrorPhase s.currentPhase,
           mode := mirrorMode s.mode }

/-- Progress rank of a phase along the cycle of its mode (start = 0,
phase just before a completed rep = 3). -/
def phaseRank : CountMode → RepPhase → ℕ
  | CountMode.EccentricFirst, RepPhase.Rest => 0
  | CountMode.EccentricFirst, RepPhase.Top => 0
  | CountMode.EccentricFirst, RepPhase.Eccentric => 1
  | CountMode.EccentricFirst, RepPhase.Bottom => 2
  | CountMode.EccentricFirst, RepPhase.Concentric => 3
  | CountMode.ConcentricFirst, RepPhase.Rest => 0
  | CountMode.ConcentricFirst, RepPhase.Bottom => 0
  | CountMode.ConcentricFirst, RepPhase.Concentric => 1
  | CountMode.ConcentricFirst, RepPhase.Top => 2
  | CountMode.ConcentricFirst, RepPhase.Eccentric => 3

/-- Potential function: four steps of progress per counted rep. -/
def potential (s : RepState α) : ℕ :=
  4 * s.count + phaseRank s.mode s.currentPhase

/-- The phases a single `update` call may move to from a given phase
(staying put is always allowed). -/
def nextPhases : CountMode → RepPhase → List RepPhase
  | CountMode.EccentricFirst, RepPhase.Rest => [RepPhase.Rest, RepPhase.Eccentric]
  | CountMode.EccentricFirst, RepPhase.Top => [RepPhase.Top, RepPhase.Eccentric]
  | CountMode.EccentricFirst, RepPhase.Eccentric =>
      [RepPhase.Eccentric, RepPhase.Bottom, RepPhase.Top]
  | CountMode.EccentricFirst, RepPhase.Bottom => [RepPhase.Bottom, RepPhase.Concentric]
  | CountMode.EccentricFirst, RepPhase.Concentric =>
      [RepPhase.Concentric, RepPhase.Top, RepPhase.Bottom]
  | CountMode.ConcentricFirst, RepPhase.Rest => [RepPhase.Rest, RepPhase.Concentric]
  | CountMode.ConcentricFirst, RepPhase.Bottom => [RepPhase.Bottom, RepPhase.Concentric]
  | CountMode.ConcentricFirst, RepPhase.Concentric =>
      [RepPhase.Concentric, RepPhase.Top, RepPhase.Bottom]
  | CountMode.ConcentricFirst, RepPhase.Top => [RepPhase.Top, RepPhase.Eccentric]
  | CountMode.ConcentricFirst, RepPhase.Eccentric =>
      [RepPhase.Eccentric, RepPhase.Bottom, RepPhase.Top]

/-- The completion/timestamp sequence of the C4 spot check. -/
def c4Seq : List (ℚ × ℚ) :=
  [(2/5, 0), (1/5, 1), (2/5, 2), (3/5, 3), (1/5, 4)]

/-! ## Definitions: exercise classifier (ExerciseClassifier.ts) -/

/-- ExerciseType from ExerciseAnalyzer.ts. -/
inductive ExerciseType where
  | BarbellBicepsCurl | BenchPress | ChestFlyMachine | InclineBenchPress
  | LatPulldown | LateralRaises | LegExtension | LegRaises
  | Plank | PullUp | PushUp | RussianTwist
  | Squat | TBarRow | TricepDips | AutoDetect
deriving DecidableEq

/-- classifyExercise (ExerciseClassifier.ts): the rule cascade, applied in
strict priority order with return-on-first-match.  All measurements are
transcribed in source order; `landmarks[27].visibility || 0` is the
identity on real numbers (`0 || 0 = 0`), so the `|| 0` guard is dropped. -/
def classifyExercise (lm : List PoseLandmark) : Option ExerciseType :=
  if lm.length < 33 then none
  else
    -- reusable coordinates and measurements
    let shoulderY := ((lget lm 11).y + (lget lm 12).y) / 2
    let hipY := ((lget lm 23).y + (lget lm 24).y) / 2
    let wristY := ((lget lm 15).y + (lget lm 16).y) / 2
    let kneeY := ((lget lm 25).y + (lget lm 26).y) / 2
    let ankleY := ((lget lm 27).y + (lget lm 28).y) / 2
    let noseY := (lget lm 0).y
    let shoulderX := ((lget lm 11).x + (lget lm 12).x) / 2
    let hipX := ((lget lm 23).x + (lget lm 24).x) / 2
    let ankleX := ((lget lm 27).x + (lget lm 28).x) / 2
    let wristX := ((lget lm 15).x + (lget lm 16).x) / 2
    let torsoHeight := |shoulderY - hipY|
    let verticalDiff := torsoHeight
    let horizontalDiff := |shoulderX - hipX|
    let reclineRatio := horizontalDiff / max 0.001 verticalDiff
    let reclineAngleDeg := arctan reclineRatio * 180 / π
    -- orientation
    let upright := shoulderY < hipY
    let isStanding := upright ∧ verticalDiff > horizontalDiff * 0.5
    let isLying := horizontalDiff > verticalDiff * 0.7
    -- limb angles
    let elbowAngle := getAvgAngle lm 11 13 15 12 14 16
    let hipAngle := getAvgAngle lm 11 23 25 12 24 26
    let kneeAngle := getAvgAngle lm 23 25 27 24 26 28
    -- common booleans
    let feetOnFloor := ankleY > 0.72
    let handsOverhead := wristY < noseY ∨ wristY < shoulderY - 0.15
    let wristTorsoDistanceX := |wristX - shoulderX|
    let elbowWidth := |(lget lm 13).x - (lget lm 14).x|
    let wristWidth := |(lget lm 15).x - (lget lm 16).x|
    let elbowsTucked := elbowWidth < torsoHeight * 1.0
    -- global T-Bar Row check
    let bodyStraightness := |180 - hipAngle|
    let legStraightness := |180 - kneeAngle|
    let bodyDy := |shoulderY - ankleY|
    let bodyDx := |shoulderX - ankleX|
    let bodyInclinationDeg := atan2 bodyDx bodyDy * (180 / π)
    let isBodyStraight := bodyStraightness < 30 ∧ legStraightness < 30
    let isInclinedHypotenuse := bodyInclinationDeg > 20 ∧ bodyInclinationDeg < 80
    let handsAreLow := wristY > shoulderY
    if isBodyStraight ∧ isInclinedHypotenuse ∧ handsAreLow then
      some ExerciseType.TBarRow
    else
    let torsoInclined := |shoulderX - hipX| > |shoulderY - hipY| * 0.3
    let isHinging := bodyStraightness > 30
    let kneesBentRange := kneeAngle < 165 ∧ kneeAngle > 70
    if upright ∧ torsoInclined ∧ handsAreLow ∧ kneesBentRange ∧ feetOnFloor ∧ isHinging then
      some ExerciseType.TBarRow
    else
    -- global Russian Twist check (isHandsToOneSide is computed but unused
    -- in the trigger condition, exactly as in the source)
    let handsOffsetFromHips := |wristX - hipX|
    let isHandsToOneSide := handsOffsetFromHips > torsoHeight * 0.1
    let isReclined := reclineAngleDeg > 10 ∧ reclineAngleDeg < 80
    let kneesBentForTwist := kneeAngle < 150
    let handsAtTorsoLevel := wristY < hipY + 0.2 ∧ wristY > shoulderY - 0.15
    let isVSitPosture := shoulderY < hipY
    if ¬upright ∧ (isReclined ∨ isVSitPosture) ∧ kneesBentForTwist ∧ handsAtTorsoLevel then
      some ExerciseType.RussianTwist
    else
    -- chest fly machine
    let thighIsHorizontalCF := |kneeY - hipY| < torsoHeight * 0.25
    let isSeatedCF := kneeAngle < 155 ∧ hipAngle < 150 ∧ thighIsHorizontalCF
    let isWideArmSpan := elbowWidth > torsoHeight * 1.0 ∨ wristWidth > torsoHeight * 0.9
    let isWideSpanSideView := wristTorsoDistanceX > torsoHeight * 0.4
    let handsBelowShoulders := wristY > shoulderY - 0.05
    let handsAboveHips := wristY < hipY - torsoHeight * 0.1
    let handsInChestZone := handsBelowShoulders ∧ handsAboveHips
    if upright ∧ ¬handsOverhead ∧ ¬torsoInclined ∧ isSeatedCF ∧ handsInChestZone ∧
        (isWideArmSpan ∨ isWideSpanSideView) then
      some ExerciseType.ChestFlyMachine
    else
    -- standing / seated exercises
    if isStanding then
      let isBentOverHighKnee := kneeAngle < 150 ∧ wristY > hipY
      if (torsoInclined ∨ isBentOverHighKnee) ∧ wristY > shoulderY ∧ kneeY > hipY + 0.1 ∧
          kneeAngle > 90 then
        some ExerciseType.TBarRow
      else
      let thighIsHorizontal := |kneeY - hipY| < torsoHeight * 0.25
      let handsAtSides := wristTorsoDistanceX < torsoHeight * 0.45
      let handsNearSeat := |wristY - hipY| < torsoHeight * 0.4
      let hipFlexedLE := hipAngle < 160
      let notVSit := shoulderY ≥ hipY - 0.05
      if torsoInclined ∧ hipFlexedLE ∧ thighIsHorizontal ∧ handsNearSeat ∧ handsAtSides ∧
          feetOnFloor ∧ notVSit then
        some ExerciseType.LegExtension
      else
      let feetVisible := (lget lm 27).visibility > 0.5
      let handsInDipZone := wristY > shoulderY - 0.1 ∧ wristY < hipY + 0.2
      if handsInDipZone ∧ feetVisible ∧ ¬feetOnFloor then
        some ExerciseType.TricepDips
      else if handsInDipZone ∧ ¬torsoInclined ∧ kneeAngle < 150 ∧ elbowsTucked then
        some ExerciseType.TricepDips
      else
      let wristsElevated := wristY < shoulderY + 0.15
      let wristsNearShoulders := |wristY - shoulderY| < 0.2
      let isDeepSquat := kneeAngle < 120 ∧ hipAngle < 120
      if torsoInclined ∧ kneeAngle < 140 ∧ hipAngle < 150 ∧
          (wristsElevated ∨ wristsNearShoulders) ∧ feetOnFloor then
        some ExerciseType.Squat
      else if isDeepSquat ∧ feetOnFloor ∧ ¬thighIsHorizontal then
        some ExerciseType.Squat
      else
      let elbowsLow := ((lget lm 13).y + (lget lm 14).y) / 2 > shoulderY + 0.05
      let isLegMoving := kneeAngle < 160 ∨ hipAngle < 160
      let legsStraightish := ¬isLegMoving
      if ¬torsoInclined ∧ ¬handsOverhead ∧ elbowAngle < 170 ∧ elbowsTucked ∧ elbowsLow ∧
          legsStraightish then
        some ExerciseType.BarbellBicepsCurl
      else
      let wristNearHips := |wristY - hipY| < 0.25
      let elbowsLocked := elbowAngle > 150
      let ankleAboveKnee := ankleY < kneeY - 0.05
      let hipFlexed := hipAngle < 155
      if ¬torsoInclined ∧ wristNearHips ∧ elbowsLocked ∧ elbowsTucked ∧
          (ankleAboveKnee ∨ hipFlexed) then
        some ExerciseType.LegRaises
      else
      let isStandingStraight := kneeAngle > 165 ∧ hipAngle > 165
      let handsBelowShouldersLR := wristY > shoulderY - 0.05
      let isWideArc := wristWidth > elbowWidth * 1.2
      let armIsExtendedLR := (wristWidth > torsoHeight * 0.7 ∨
        wristTorsoDistanceX > torsoHeight * 0.35) ∧ isWideArc
      if isStandingStraight ∧ armIsExtendedLR ∧ handsBelowShouldersLR ∧ ¬handsOverhead then
        some ExerciseType.LateralRaises
      else
      if handsOverhead then
        let armIsExtendedOut := wristTorsoDistanceX > 0.15
        if armIsExtendedOut ∧ ¬elbowsTucked ∧ (feetOnFloor ∨ hipAngle > 160) then
          some ExerciseType.LateralRaises
        else
        let anklesBelowKnees := ankleY > kneeY + 0.05
        let isSeatedOnMachine := (hipAngle < 135 ∨ (thighIsHorizontal ∧ anklesBelowKnees)) ∧
          (feetOnFloor ∨ thighIsHorizontal)
        let handsAboveShoulders := wristY < shoulderY - 0.05
        let avgShoulderFlexion := (calculateAngle (lget lm 23) (lget lm 11) (lget lm 15)
          + calculateAngle (lget lm 24) (lget lm 12) (lget lm 16)) / 2
        if reclineAngleDeg ≥ 25 ∧ reclineAngleDeg ≤ 65 ∧ avgShoulderFlexion < 160 ∧
            handsAboveShoulders then
          some ExerciseType.InclineBenchPress
        else if isSeatedOnMachine ∧ handsAboveShoulders then
          some ExerciseType.LatPulldown
        else if handsAboveShoulders ∧ ¬isSeatedOnMachine ∧ ¬feetOnFloor then
          some ExerciseType.PullUp
        else none
      else none
    -- lying exercises
    else if isLying then
      let legsAreVertical := kneeY > hipY + 0.15
      let shouldersHigherThanHips := shoulderY < hipY - 0.05
      let kneesBentRT := kneeAngle < 140
      let isVSitPosition := shouldersHigherThanHips ∧ kneesBentRT ∧ ¬legsAreVertical
      if isVSitPosition ∧ reclineAngleDeg > 15 ∧ reclineAngleDeg < 70 then
        some ExerciseType.RussianTwist
      else if legsAreVertical then some ExerciseType.TBarRow
      else
      let isProne := wristY > shoulderY
      let faceIsUp := noseY < shoulderY + 0.1
      let kneesBent := kneeAngle < 135
      let legsStraight := kneeAngle > 150
      let legsHorizontal := |kneeY - hipY| < 0.15
      let bodyIsFlat := |shoulderY - ankleY| < 0.15
      if ¬legsHorizontal then some ExerciseType.TBarRow
      else if shouldersHigherThanHips ∧ ¬bodyIsFlat then some ExerciseType.TBarRow
      else if legsStraight ∧ legsHorizontal ∧ bodyIsFlat then
        let avgElbow := (calculateAngle (lget lm 11) (lget lm 13) (lget lm 15)
          + calculateAngle (lget lm 12) (lget lm 14) (lget lm 16)) / 2
        if |wristY - ((lget lm 13).y + (lget lm 14).y) / 2| < 0.15 ∧ avgElbow < 130 then
          some ExerciseType.Plank
        else some ExerciseType.PushUp
      else if isProne ∧ ¬faceIsUp ∧ ¬kneesBent ∧ legsHorizontal ∧ bodyIsFlat then
        some ExerciseType.PushUp
      else if kneesBent ∨ ¬isProne then
        (if reclineAngleDeg ≤ 65 then some ExerciseType.InclineBenchPress
         else some ExerciseType.BenchPress)
      else if isProne ∧ legsHorizontal ∧ bodyIsFlat then some ExerciseType.PushUp
      else if reclineAngleDeg ≤ 65 then some ExerciseType.InclineBenchPress
      else some ExerciseType.BenchPress
    else none

/-- Default (unused-index) landmark for synthetic frames. -/
def dfltLm : PoseLandmark := ⟨0, 0, 0, 0⟩

/-- Synthetic 33-landmark frame: the whole body (shoulders 11/12, hips
23/24, knees 25/26, ankles 27/28) lies on the 45-degree line `y = x`,
and the wrists 15/16 sit below the shoulders on screen (larger y).  It
satisfies the classifier's global T-Bar-Row signature. -/
def tbarFrame : List PoseLandmark :=
  [dfltLm, dfltLm, dfltLm, dfltLm, dfltLm, dfltLm, dfltLm, dfltLm, dfltLm, dfltLm,
   dfltLm,
   ⟨0.2, 0.2, 0, 1⟩, ⟨0.2, 0.2, 0, 1⟩,
   dfltLm, dfltLm,
   ⟨0.3, 0.6, 0, 1⟩, ⟨0.3, 0.6, 0, 1⟩,
   dfltLm, dfltLm, dfltLm, dfltLm, dfltLm, dfltLm,
   ⟨0.4, 0.4, 0, 1⟩, ⟨0.4, 0.4, 0, 1⟩,
   ⟨0.55, 0.55, 0, 1⟩, ⟨0.55, 0.55, 0, 1⟩,
   ⟨0.7, 0.7, 0, 1⟩, ⟨0.7, 0.7, 0, 1⟩,
   dfltLm, dfltLm, dfltLm, dfltLm]

/-! ## Definitions: orchestrator routing and locking
(GeometricRuleEngine.ts)

`analyzeFrame` below models GeometricRuleEngine.analyzeFrame up to and
including the choice of the analyzer the frame is dispatched to; the
dispatch itself is represented by `RouteResult.route e` (the source then
calls `this.analyzers[e].analyze(...)`).  The two early returns (the
no-pose zero feedback and the pre-lock placeholder feedbacks) are the
`noPose` / `scanning` / `detecting` results.  JavaScript indexing
`landmarks[11].y` throws a TypeError when entry 11 is missing; the model
returns `none` in that case. -/

/-- Mutable engine fields (lock state plus the 30-sample shoulder-Y
rolling window). -/
structure EngineState where
  currentExercise : ExerciseType
  isLocked : Bool
  lockedExercise : Option ExerciseType
  consecutiveFrames : ℕ
  potentialExercise : Option ExerciseType
  shoulderHistory : List ℝ

/-- The observable outcome of one `analyzeFrame` call. -/
inductive RouteResult where
  | noPose
  | scanning
  | detecting (p : Option ExerciseType)
  | route (e : ExerciseType)
deriving DecidableEq

/-- Per-exercise lock thresholds (GeometricRuleEngine.ts lines 120-124):
default 6; Plank 30; Russian Twist and Lateral Raises 12; Pull Up, Lat
Pulldown, Bench Press and Leg Raises 4. -/
def lockThreshold (e : ExerciseType) : ℕ :=
  if e = ExerciseType.Plank then 30
  else if e = ExerciseType.RussianTwist then 12
  else if e = ExerciseType.LateralRaises then 12
  else if e = ExerciseType.PullUp ∨ e = ExerciseType.LatPulldown ∨
      e = ExerciseType.BenchPress ∨ e = ExerciseType.LegRaises then 4
  else 6

/-- `Math.min(...history)`: the history is always nonempty at its use
sites (the push happens first), so the empty case is unreachable (JS
would give positive infinity there). -/
def listMin : List ℝ → ℝ
  | [] => 0
  | x :: xs => xs.foldl min x

/-- `Math.max(...history)`; see `listMin`. -/
def listMax : List ℝ → ℝ
  | [] => 0
  | x :: xs => xs.foldl max x

/-- Push a shoulder-Y sample and trim the rolling window to 30 samples
(`push` then `if (length > 30) shift()`). -/
def pushShoulder (hist : List ℝ) (y : ℝ) : List ℝ :=
  let h := hist ++ [y]
  if h.length > 30 then h.tail else h

/-- GeometricRuleEngine.analyzeFrame (routing/locking portion).  Returns
`none` where the JS code would throw (landmark 11 or 12 missing on a
nonempty array). -/
def analyzeFrame (s : EngineState) (lm : List PoseLandmark) :
    Option (EngineState × RouteResult) :=
  if lm.length = 0 then some (s, RouteResult.noPose)
  else
    match lm.get? 11, lm.get? 12 with
    | some l11, some l12 =>
      -- global movement tracking (runs every frame)
      let shoulderY := (l11.y + l12.y) / 2
      let hist := pushShoulder s.shoulderHistory shoulderY
      let variance := listMax hist - listMin hist
      if s.currentExercise = ExerciseType.AutoDetect then
        match s.isLocked, s.lockedExercise with
        | true, some le =>
          -- dynamic unlock: locked Plank plus movement switches to Push Up
          let le2 := if le = ExerciseType.Plank ∧ variance > 0.05
            then ExerciseType.PushUp else le
          some ({ s with shoulderHistory := hist, lockedExercise := some le2 },
            RouteResult.route le2)
        | _, _ =>
          match classifyExercise lm with
          | none => some ({ s with shoulderHistory := hist }, RouteResult.scanning)
          | some d0 =>
            let cf1 := if s.potentialExercise = some d0 then s.consecutiveFrames + 1 else 1
            let pot1 : Option ExerciseType := some d0
            -- movement check resolving Push Up vs Plank
            let boosted := (d0 = ExerciseType.Plank ∨ d0 = ExerciseType.PushUp) ∧
              variance > 0.05
            let d := if boosted then ExerciseType.PushUp else d0
            let lt := if boosted then 4 else lockThreshold d0
            let cf := if boosted ∧ pot1 = some ExerciseType.PushUp then cf1 + 2 else cf1
            if cf > lt then
              some ({ s with shoulderHistory := hist, potentialExercise := pot1,
                             consecutiveFrames := cf, lockedExercise := some d,
                             isLocked := true },
                RouteResult.route d)
            else
              some ({ s with shoulderHistory := hist, potentialExercise := pot1,
                             consecutiveFrames := cf },
                RouteResult.detecting pot1)
      else
        some ({ s with shoulderHistory := hist }, RouteResult.route s.currentExercise)
    | _, _ => none

/-- Engine state as built by the constructor (`currentExercise = Squat`,
nothing locked, empty history). -/
def engineInit : EngineState :=
  { currentExercise := ExerciseType.Squat, isLocked := false, lockedExercise := none,
    consecutiveFrames := 0, potentialExercise := none, shoulderHistory := [] }

/-- GeometricRuleEngine.setExercise: switches the target exercise and
resets the lock state (the shoulder history is not cleared). -/
def setExercise (s : EngineState) (e : ExerciseType) : EngineState :=
  { s with currentExercise := e, isLocked := false, lockedExercise := none,
           consecutiveFrames := 0, potentialExercise := none }

/-- A fresh engine switched to Auto-Detect mode. -/
def engineAuto : EngineState := setExercise engineInit ExerciseType.AutoDetect

/-- Feed a list of frames through the engine, stopping with `none` if any
frame throws. -/
def engineRun (s : EngineState) : List (List PoseLandmark) → Option EngineState
  | [] => some s
  | f :: fs =>
    match analyzeFrame s f with
    | none => none
    | some (s', _) => engineRun s' fs

/-! ## Definitions: Feedback, the Plank analyzer and the Push-Up analyzer
(ExerciseAnalyzer.ts, PlankAnalyzer.ts, PushupAnalyzer.ts,
BiomechanicalAnalyzer.ts) -/

/-- ScoreBreakdown from ExerciseAnalyzer.ts. -/
structure ScoreBreakdown where
  total : ℝ
  stability : ℝ
  rom : ℝ
  posture : ℝ
  efficiency : ℝ
  bracing : ℝ

/-- Feedback from ExerciseAnalyzer.ts.  The optional `correction` is
modelled as a plain string (empty when the source leaves it out),
`jointAngles` as an association list. -/
structure Feedback where
  score : ℝ
  breakdown : ScoreBreakdown
  reps : ℤ
  repPhase : String
  message : String
  correction : String
  isGoodForm : Bool
  jointAngles : List (String × ℝ)
  detectedExercise : Option ExerciseType

/-- Rep phases rendered as the strings the TS union type uses. -/
def repPhaseName : RepPhase → String
  | RepPhase.Rest => "Rest"
  | RepPhase.Eccentric => "Eccentric"
  | RepPhase.Bottom => "Bottom"
  | RepPhase.Concentric => "Concentric"
  | RepPhase.Top => "Top"

/-- The canonical empty feedback every guarded analyzer returns for
frames with fewer than 33 landmarks. -/
def emptyFeedback : Feedback :=
  { score := 0, breakdown := ⟨0, 0, 0, 0, 0, 0⟩, reps := 0, repPhase := "Rest",
    message := "No Pose", correction := "", isGoodForm := false,
    jointAngles := [], detectedExercise := none }

/-- CameraView from BiomechanicalAnalyzer.ts (the string literal view
named 45 becomes the constructor `FortyFive`). -/
inductive CameraView where
  | Front | Side | FortyFive | Unknown
deriving DecidableEq

/-- BiomechanicalAnalyzer.detectView.  `z || 0` is the identity on real
numbers, so the guard is dropped. -/
def detectView (lm : List PoseLandmark) : CameraView :=
  if lm.length < 33 then CameraView.Unknown
  else
    let xDiff := |(lget lm 11).x - (lget lm 12).x|
    let zDiff := |(lget lm 11).z - (lget lm 12).z|
    if xDiff = 0 then CameraView.Side
    else
      let ratio := zDiff / xDiff
      if ratio < 0.5 then CameraView.Front
      else if ratio > 1.5 then CameraView.Side
      else CameraView.FortyFive

/-- BiomechanicalAnalyzer.calculatePosture (default posture pillar,
ear 8 / shoulder 12 / hip 24 alignment; the `view` parameter is unused
in the source body). -/
def calculatePosture (lm : List PoseLandmark) : ℝ :=
  let angle := calculateAngle (lget lm 8) (lget lm 12) (lget lm 24)
  max 0 (100 - |180 - angle| * 2)

/-- PushUpBiomechanics.calculateBracing (hip-sag check). -/
def pushupBracing (lm : List PoseLandmark) : ℝ :=
  let hipAngle := (calculateAngle (lget lm 11) (lget lm 23) (lget lm 25)
    + calculateAngle (lget lm 12) (lget lm 24) (lget lm 26)) / 2
  if hipAngle < 150 then 60
  else if hipAngle < 165 then 80
  else if hipAngle > 190 then 70
  else 100

/-- PushUpBiomechanics.analyzePillars: stability and ROM overrides return
100, posture and efficiency come from the base class (efficiency 100),
and `total` is initialised to 0 — the field the spec says the analyzer
later overwrites. -/
def pushupPillars (lm : List PoseLandmark) : ScoreBreakdown :=
  { stability := 100, rom := 100, posture := calculatePosture lm,
    efficiency := 100, bracing := pushupBracing lm, total := 0 }

namespace PushUpAnalyzer

/-- PushUpAnalyzer.analyze.  `wallNow` models `Date.now()`, used only
when the caller omits the timestamp (`timestamp ?? Date.now()` inside
RepCounter.update). -/
def analyze (s : RepState ℝ) (lm : List PoseLandmark)
    (timestamp : Option ℝ) (wallNow : ℝ) : RepState ℝ × Feedback :=
  if lm.length < 33 then (s, emptyFeedback)
  else
    let leftElbow := calculateAngle (lget lm 11) (lget lm 13) (lget lm 15)
    let rightElbow := calculateAngle (lget lm 12) (lget lm 14) (lget lm 16)
    let elbowAngle := (leftElbow + rightElbow) / 2
    -- normalize: angle 170 -> 0.0 (top), angle 90 -> 1.0 (bottom)
    let normalizedPos := min 1 (max 0 ((170 - elbowAngle) / 80))
    let s2 := RepCounter.update s normalizedPos (timestamp.getD wallNow)
    let pillarScores := pushupPillars lm
    let messages : List String :=
      (if pillarScores.bracing < 70 then ["Tighten Core"] else []) ++
      (if pillarScores.posture < 70 then ["Straight Body"] else []) ++
      (if s2.currentPhase = RepPhase.Bottom ∧ pillarScores.rom < 70
        then ["Go Lower"] else [])
    let totalScore := pillarScores.rom * 0.3 + pillarScores.stability * 0.2 +
      pillarScores.bracing * 0.3 + pillarScores.posture * 0.2
    (s2,
      { score := totalScore,
        breakdown := pillarScores,
        reps := (s2.count : ℤ),
        repPhase := repPhaseName s2.currentPhase,
        message := if messages = [] then
            (if s2.currentPhase = RepPhase.Rest then "Get Set"
             else repPhaseName s2.currentPhase)
          else messages.headD "",
        correction := String.intercalate ", " messages,
        isGoodForm := totalScore > 80,
        jointAngles := [("elbow", elbowAngle)],
        detectedExercise := none })

end PushUpAnalyzer

/-- The Push-Up analyzer's RepCounter configuration
(`thresholdHigh = 0.60`, `thresholdLow = 0.35`, EccentricFirst). -/
def pushupRepInit : RepState ℝ :=
  freshRep CountMode.EccentricFirst (35/100) (60/100)

/-- Synthetic 33-landmark frame with ear 8, shoulders 11/12, elbows
13/14, wrists 15/16, hips 23/24 and knees 25/26 all on the horizontal
line `y = 0.5`, in the straight-line order each angle check reads. -/
def pushupFrame : List PoseLandmark :=
  [dfltLm, dfltLm, dfltLm, dfltLm, dfltLm, dfltLm, dfltLm, dfltLm,
   ⟨0.1, 0.5, 0, 1⟩,
   dfltLm, dfltLm,
   ⟨0.3, 0.5, 0, 1⟩, ⟨0.3, 0.5, 0, 1⟩,
   ⟨0.4, 0.5, 0, 1⟩, ⟨0.4, 0.5, 0, 1⟩,
   ⟨0.5, 0.5, 0, 1⟩, ⟨0.5, 0.5, 0, 1⟩,
   dfltLm, dfltLm, dfltLm, dfltLm, dfltLm, dfltLm,
   ⟨0.5, 0.5, 0, 1⟩, ⟨0.5, 0.5, 0, 1⟩,
   ⟨0.7, 0.5, 0, 1⟩, ⟨0.7, 0.5, 0, 1⟩,
   dfltLm, dfltLm, dfltLm, dfltLm, dfltLm, dfltLm]

/-- The mutable fields of a PlankAnalyzer instance. -/
structure PlankState where
  accumulatedSeconds : ℝ
  lastFrameTime : ℝ
  isHolding : Bool
  bufferTime : ℝ
  recordingStartTime : ℝ

/-- A freshly constructed PlankAnalyzer. -/
def plankInit : PlankState :=
  { accumulatedSeconds := 0, lastFrameTime := 0, isHolding := false,
    bufferTime := 0, recordingStartTime := 0 }

namespace PlankAnalyzer

/-- PlankAnalyzer.analyze.  The source reads `const now = Date.now()` and
never uses its `timestamp` parameter, so the wall clock `wallNow` — not
the supplied `timestamp` — drives the hold timer.  There is no
33-landmark guard in this analyzer: indices 23/24 and one body side are
dereferenced directly, which on a short array is a JS TypeError,
modelled as `none`.  (The `elbow` landmark is selected but never
dereferenced in the source, so it cannot throw and is not bound here.) -/
def analyze (s : PlankState) (lm : List PoseLandmark)
    (timestamp : Option ℝ) (wallNow : ℝ) : Option (PlankState × Feedback) :=
  let now := wallNow
  let lastT := if s.lastFrameTime = 0 then now else s.lastFrameTime
  let deltaTime := (now - lastT) / 1000
  do
    let l23 ← lm.get? 23
    let l24 ← lm.get? 24
    let isLeftSide := l23.visibility > l24.visibility
    let shoulder ← if isLeftSide then lm.get? 11 else lm.get? 12
    let hip ← if isLeftSide then lm.get? 23 else lm.get? 24
    let knee ← if isLeftSide then lm.get? 25 else lm.get? 26
    let ankle ← if isLeftSide then lm.get? 27 else lm.get? 28
    let hipAngle := calculateAngle shoulder hip knee
    let kneeAngle := calculateAngle hip knee ankle
    -- form analysis: later checks overwrite earlier message/correction
    let r1 := if hipAngle < 165 then
        ("Hips too high", "Lower hips to form straight line", false)
      else ("Hold position", "", true)
    let midY := (shoulder.y + knee.y) / 2
    let r2 := if hip.y > midY + 0.05 then
        ("Hips sagging", "Lift hips & squeeze glutes", false)
      else r1
    let r3 := if kneeAngle < 160 then
        ("Legs bent", "Straighten your legs", false)
      else r2
    let isGoodForm := r3.2.2
    -- timer logic (0.5 s stabilizing buffer)
    let bufferTime2 := if isGoodForm then s.bufferTime + deltaTime else 0
    let holding2 := if isGoodForm then
        (if s.bufferTime + deltaTime > 0.5 then true else s.isHolding)
      else false
    let accum2 := if isGoodForm ∧ s.bufferTime + deltaTime > 0.5 then
        s.accumulatedSeconds + deltaTime
      else s.accumulatedSeconds
    let message2 := if isGoodForm then
        (if s.bufferTime + deltaTime > 0.5 then "Good Plank! Hold it!"
         else "Stabilizing...")
      else r3.1
    let stabilityScore : ℝ := if isGoodForm then 1 else 0.5
    let postureScore := max 0 (1 - |180 - hipAngle| / 40)
    pure
      ({ accumulatedSeconds := accum2, lastFrameTime := now,
         isHolding := holding2, bufferTime := bufferTime2,
         recordingStartTime := s.recordingStartTime },
       { score := (stabilityScore + postureScore) / 2,
         breakdown := { total := stabilityScore, stability := stabilityScore,
                        rom := 0, posture := postureScore, efficiency := 1,
                        bracing := if isGoodForm then 1 else 0.5 },
         reps := ⌊accum2⌋,
         repPhase := if holding2 then "Holding" else "Resisted",
         message := message2,
         correction := r3.2.1,
         isGoodForm := isGoodForm,
         jointAngles := [("hip", hipAngle), ("knee", kneeAngle)],
         detectedExercise := none })

end PlankAnalyzer

/-- Synthetic 33-landmark good-form plank frame: left shoulder 11, left
hip 23, left knee 25 and left ankle 27 on the horizontal line `y = 0.5`,
left hip more visible than right hip. -/
def plankFrame : List PoseLandmark :=
  [dfltLm, dfltLm, dfltLm, dfltLm, dfltLm, dfltLm, dfltLm, dfltLm, dfltLm,
   dfltLm, dfltLm,
   ⟨1/5, 1/2, 0, 1⟩, dfltLm,
   dfltLm, dfltLm, dfltLm, dfltLm, dfltLm, dfltLm, dfltLm, dfltLm, dfltLm,
   dfltLm,
   ⟨2/5, 1/2, 0, 1⟩, ⟨2/5, 1/2, 0, 0⟩,
   ⟨3/5, 1/2, 0, 1⟩, dfltLm,
   ⟨4/5, 1/2, 0, 1⟩, dfltLm,
   dfltLm, dfltLm, dfltLm, dfltLm]

/-- Run the Plank analyzer over the same two supplied inputs
(`plankFrame` with timestamps 0 and 33) at two given wall-clock instants
and report the final `reps` field. -/
def plankRunTwice (w1 w2 : ℝ) : Option ℤ :=
  match PlankAnalyzer.analyze plankInit plankFrame (some 0) w1 with
  | none => none
  | some (s1, _) =>
    match PlankAnalyzer.analyze s1 plankFrame (some 33) w2 with
    | none => none
    | some (_, fb) => some fb.reps

/-- Concrete engine state locked to Plank, with a short shoulder history,
used to exercise the dynamic Plank → Push Up unlock. -/
def c5LockedState : EngineState :=
  { currentExercise := ExerciseType.AutoDetect, isLocked := true,
    lockedExercise := some ExerciseType.Plank, consecutiveFrames := 31,
    potentialExercise := some ExerciseType.Plank, shoulderHistory := [0.4] }

/-- Concrete engine state locked to T-Bar Row. -/
def c3LockedState : EngineState :=
  { currentExercise := ExerciseType.AutoDetect, isLocked := true,
    lockedExercise := some ExerciseType.TBarRow, consecutiveFrames := 7,
    potentialExercise := some ExerciseType.TBarRow, shoulderHistory := [] }

/-! ## Theorems: angle primitive helper lemmas -/

lemma atan2_zero_of_pos {x : ℝ} (hx : 0 < x) : atan2 0 x = 0 := by
  simp [atan2, hx]

lemma atan2_zero_of_neg {x : ℝ} (hx : x < 0) : atan2 0 x = π := by
  simp [atan2, not_lt.mpr hx.le, hx]

lemma atan2_diag_of_pos {d : ℝ} (hd : 0 < d) : atan2 d d = π / 4 := by
  simp [atan2, hd, div_self hd.ne', Real.arctan_one]

lemma atan2_neg_diag_of_pos {d : ℝ} (hd : 0 < d) :
    atan2 (-d) (-d) = π / 4 - π := by
  have h1 : ¬ (0 < -d) := by linarith
  have h2 : -d < 0 := by linarith
  have h3 : ¬ (0 ≤ -d) := by linarith
  have h4 : -d / -d = 1 := by
    rw [neg_div_neg_eq, div_self hd.ne']
  simp [atan2, h1, h2, h3, h4, Real.arctan_one]

/-- Bounds of `atan2`: it always lies in `(-π, π]`. -/
lemma atan2_bounds (y x : ℝ) : -π < atan2 y x ∧ atan2 y x ≤ π := by
  have hpi : 0 < π := Real.pi_pos
  have harctan_lt : ∀ z : ℝ, arctan z < π / 2 := fun z => Real.arctan_lt_pi_div_two z
  have harctan_gt : ∀ z : ℝ, -(π / 2) < arctan z := fun z => Real.neg_pi_div_two_lt_arctan z
  unfold atan2
  split_ifs with h1 h2 h3 h4 h5
  · constructor
    · have := harctan_gt (y / x); linarith
    · have := harctan_lt (y / x); linarith
  · -- x < 0, 0 ≤ y : y / x ≤ 0, arctan ≤ 0
    have hyx : y / x ≤ 0 := div_nonpos_of_nonneg_of_nonpos h3 h2.le
    have : arctan (y / x) ≤ 0 := by
      rw [← Real.arctan_zero]
      exact Real.arctan_strictMono.monotone hyx
    constructor
    · have := harctan_gt (y / x); linarith
    · linarith
  · -- x < 0, y < 0 : y / x > 0, arctan > 0
    have hy : y < 0 := lt_of_not_le h3
    have hyx : 0 < y / x := div_pos_of_neg_of_neg hy h2
    have : 0 < arctan (y / x) := by
      rw [← Real.arctan_zero]
      exact Real.arctan_strictMono hyx
    constructor
    · linarith
    · have := harctan_lt (y / x); linarith
  · constructor <;> linarith
  · constructor <;> linarith
  · constructor <;> linarith

/-- Positive scaling invariance of `atan2`. -/
lemma atan2_smul {t : ℝ} (ht : 0 < t) (y x : ℝ) :
    atan2 (t * y) (t * x) = atan2 y x := by
  have hdiv : t * y / (t * x) = y / x := by
    rcases eq_or_ne x 0 with hx | hx
    · simp [hx]
    · field_simp
      ring
  unfold atan2
  have hpos : 0 < t * x ↔ 0 < x := by
    constructor <;> intro h
    · by_contra hx
      push_neg at hx
      have : t * x ≤ 0 := mul_nonpos_of_nonneg_of_nonpos ht.le hx
      linarith
    · exact mul_pos ht h
  have hneg : t * x < 0 ↔ x < 0 := by
    constructor <;> intro h
    · by_contra hx
      push_neg at hx
      have : 0 ≤ t * x := mul_nonneg ht.le hx
      linarith
    · exact mul_neg_of_pos_of_neg ht h
  have hynn : 0 ≤ t * y ↔ 0 ≤ y := by
    constructor <;> intro h
    · by_contra hy
      push_neg at hy
      have : t * y < 0 := mul_neg_of_pos_of_neg ht hy
      linarith
    · exact mul_nonneg ht.le h
  have hypos : 0 < t * y ↔ 0 < y := by
    constructor <;> intro h
    · by_contra hy
      push_neg at hy
      have : t * y ≤ 0 := mul_nonpos_of_nonneg_of_nonpos ht.le hy
      linarith
    · exact mul_pos ht h
  have hyneg : t * y < 0 ↔ y < 0 := by
    constructor <;> intro h
    · by_contra hy
      push_neg at hy
      have : 0 ≤ t * y := mul_nonneg ht.le hy
      linarith
    · exact mul_neg_of_pos_of_neg ht h
  simp only [hdiv, hpos, hneg, hynn, hypos, hyneg]

/-- Antipodal relation: for a nonzero vector, `atan2` of the opposite
vector differs by exactly `π` (in one direction or the other). -/
lemma atan2_antipodal {y x : ℝ} (h : x ≠ 0 ∨ y ≠ 0) :
    atan2 y x - atan2 (-y) (-x) = π ∨ atan2 y x - atan2 (-y) (-x) = -π := by
  have hdiv : (-y) / (-x) = y / x := neg_div_neg_eq y x
  rcases lt_trichotomy x 0 with hx | hx | hx
  · -- x < 0 : atan2 y x = arctan (y/x) ± π ; atan2 (-y) (-x) = arctan (y/x)
    have hnx : 0 < -x := by linarith
    have hx1 : ¬ (0 < x) := by linarith
    rcases le_or_lt 0 y with hy | hy
    · left
      simp only [atan2, hx1, hx, hy, hnx, hdiv, if_true, if_false]
      ring
    · right
      simp only [atan2, hx1, hx, not_le.mpr hy, hnx, hdiv, if_true, if_false]
      ring
  · -- x = 0 : y ≠ 0
    subst hx
    have hy : y ≠ 0 := h.resolve_left (by simp)
    rcases lt_trichotomy y 0 with hy' | hy' | hy'
    · right
      have hny : 0 < -y := by linarith
      simp only [atan2, lt_irrefl, neg_zero, hy', hny, not_lt.mpr hy'.le,
        if_true, if_false]
      ring
    · exact absurd hy' hy
    · left
      have hny : -y < 0 := by linarith
      simp only [atan2, lt_irrefl, neg_zero, hy', hny, not_lt.mpr hny.le,
        not_lt.mpr hy'.le, asymm hy', if_true, if_false]
      ring
  · -- 0 < x : atan2 y x = arctan (y/x) ; other side gets ∓ π
    have hnx : -x < 0 := by linarith
    have h1 : ¬ (0 < -x) := by linarith
    rcases le_or_lt y 0 with hy | hy
    · right
      have hny : 0 ≤ -y := by linarith
      simp only [atan2, hx, h1, hnx, hny, hdiv, if_true, if_false]
      ring
    · left
      have hny : ¬ (0 ≤ -y) := by linarith
      simp only [atan2, hx, h1, hnx, hny, hdiv, if_true, if_false]
      ring

/-- Helper: `calculateAngle` is symmetric in its outer arguments. -/
lemma calculateAngle_swap (a b c : PoseLandmark) :
    calculateAngle a b c = calculateAngle c b a := by
  have h : (atan2 (c.y - b.y) (c.x - b.x) - atan2 (a.y - b.y) (a.x - b.x)) * 180 / π
      = -((atan2 (a.y - b.y) (a.x - b.x) - atan2 (c.y - b.y) (c.x - b.x)) * 180 / π) := by
    ring
  simp only [calculateAngle, h, abs_neg]

/-- Helper: `calculateAngle` always lands in `[0, 180]`. -/
lemma calculateAngle_mem (a b c : PoseLandmark) :
    0 ≤ calculateAngle a b c ∧ calculateAngle a b c ≤ 180 := by
  simp only [calculateAngle]
  have hpi : 0 < π := Real.pi_pos
  have h1 := atan2_bounds (c.y - b.y) (c.x - b.x)
  have h2 := atan2_bounds (a.y - b.y) (a.x - b.x)
  set r := atan2 (c.y - b.y) (c.x - b.x) - atan2 (a.y - b.y) (a.x - b.x) with hr
  have hrb : -(2 * π) < r ∧ r < 2 * π := by
    constructor <;> [linarith [h1.1, h2.2]; linarith [h1.2, h2.1]]
  have habs : |r * 180 / π| < 360 := by
    rw [abs_div, abs_of_pos hpi, div_lt_iff₀ hpi, abs_mul]
    have : |r| < 2 * π := abs_lt.mpr hrb
    have h180 : |(180 : ℝ)| = 180 := by norm_num
    rw [h180]
    nlinarith
  have habs0 : 0 ≤ |r * 180 / π| := abs_nonneg _
  split_ifs with h
  · constructor <;> linarith
  · push_neg at h
    constructor <;> linarith

/-- Helper: three collinear points with `b` strictly between `a` and `c`
give an angle of exactly 180.  Betweenness is expressed as: the vector
from `b` to `a` is a negative multiple of the (nonzero) vector from `b`
to `c`. -/
lemma calculateAngle_between {a b c : PoseLandmark} {t : ℝ} (ht : 0 < t)
    (hvec_x : a.x - b.x = -(t * (c.x - b.x)))
    (hvec_y : a.y - b.y = -(t * (c.y - b.y)))
    (hne : c.x - b.x ≠ 0 ∨ c.y - b.y ≠ 0) :
    calculateAngle a b c = 180 := by
  simp only [calculateAngle]
  have hpi : 0 < π := Real.pi_pos
  have hsmul : atan2 (a.y - b.y) (a.x - b.x)
      = atan2 (-(c.y - b.y)) (-(c.x - b.x)) := by
    rw [hvec_x, hvec_y]
    have hx : -(t * (c.x - b.x)) = t * (-(c.x - b.x)) := by ring
    have hy : -(t * (c.y - b.y)) = t * (-(c.y - b.y)) := by ring
    rw [hx, hy, atan2_smul ht]
  rw [hsmul]
  rcases atan2_antipodal hne with h | h
  · rw [h]
    have hval : π * 180 / π = 180 := by
      rw [div_eq_iff hpi.ne']
      ring
    rw [hval]
    norm_num
  · rw [h]
    have hval : (-π) * 180 / π = -180 := by
      rw [div_eq_iff hpi.ne']
      ring
    rw [hval]
    norm_num

/-- Helper: fully coincident points give angle 0 (the JS code never sees a
NaN here because `Math.atan2(0, 0) = 0`). -/
lemma calculateAngle_coincident (p : PoseLandmark) :
    calculateAngle p p p = 0 := by
  simp [calculateAngle, atan2]

/-- Helper: when the two outer points coincide the angle is 0, whatever
the middle point is. -/
lemma calculateAngle_outer_coincident (a b : PoseLandmark) :
    calculateAngle a b a = 0 := by
  simp [calculateAngle]

/-- Helper: three points on a common horizontal line with the middle
argument strictly between the outer ones give 180. -/
lemma calculateAngle_horiz {ax bx cx yy za zb zc va vb vc : ℝ}
    (h1 : ax < bx) (h2 : bx < cx) :
    calculateAngle ⟨ax, yy, za, va⟩ ⟨bx, yy, zb, vb⟩ ⟨cx, yy, zc, vc⟩ = 180 := by
  have ht : 0 < (bx - ax) / (cx - bx) := by
    apply div_pos <;> linarith
  have hcb : cx - bx ≠ 0 := by
    intro h
    linarith
  apply calculateAngle_between ht
  · show ax - bx = -((bx - ax) / (cx - bx) * (cx - bx))
    rw [div_mul_cancel₀ _ hcb]
    ring
  · show yy - yy = -((bx - ax) / (cx - bx) * (yy - yy))
    ring
  · left
    exact hcb

/-- Helper: three points on a common 45-degree line (slope one, increasing
x) with the middle argument strictly between the outer ones give 180. -/
lemma calculateAngle_diag {ax bx cx k za zb zc va vb vc : ℝ}
    (h1 : ax < bx) (h2 : bx < cx) :
    calculateAngle ⟨ax, ax + k, za, va⟩ ⟨bx, bx + k, zb, vb⟩ ⟨cx, cx + k, zc, vc⟩ = 180 := by
  have ht : 0 < (bx - ax) / (cx - bx) := by
    apply div_pos <;> linarith
  have hcb : cx - bx ≠ 0 := by
    intro h
    linarith
  apply calculateAngle_between ht
  · show ax - bx = -((bx - ax) / (cx - bx) * (cx - bx))
    rw [div_mul_cancel₀ _ hcb]
    ring
  · show (ax + k) - (bx + k) = -((bx - ax) / (cx - bx) * ((cx + k) - (bx + k)))
    have hk : (cx + k) - (bx + k) = cx - bx := by ring
    rw [hk, div_mul_cancel₀ _ hcb]
    ring
  · left
    exact hcb

/-! ## Claim C8: the angle primitive contract -/

/-- C8: for all points `a`, `b`, `c`, `calculateAngle a b c` equals
`calculateAngle c b a`; it always returns a value in `[0, 180]`; it
returns 180 for three collinear points with `b` strictly between `a` and
`c` (betweenness: `a - b` is a negative multiple of the nonzero `c - b`);
and for coincident points it is total and deterministic: fully coincident
points and coincident outer points both give 0 (no NaN arises because
`Math.atan2 0 0 = 0` in JS, modelled by `atan2 0 0 = 0`). -/
theorem C8_calculateAngle_contract :
    (∀ a b c : PoseLandmark, calculateAngle a b c = calculateAngle c b a) ∧
    (∀ a b c : PoseLandmark,
      0 ≤ calculateAngle a b c ∧ calculateAngle a b c ≤ 180) ∧
    (∀ (a b c : PoseLandmark) (t : ℝ), 0 < t →
      a.x - b.x = -(t * (c.x - b.x)) →
      a.y - b.y = -(t * (c.y - b.y)) →
      (c.x - b.x ≠ 0 ∨ c.y - b.y ≠ 0) →
      calculateAngle a b c = 180) ∧
    (∀ p : PoseLandmark, calculateAngle p p p = 0) ∧
    (∀ a b : PoseLandmark, calculateAngle a b a = 0) := by
  refine ⟨calculateAngle_swap, calculateAngle_mem, ?_,
    calculateAngle_coincident, calculateAngle_outer_coincident⟩
  intro a b c t ht hx hy hne
  exact calculateAngle_between ht hx hy hne

/-- Witness for C8: the straight-line triple `(0,0), (1,0), (3,0)` is a
concrete instance of the betweenness hypothesis and evaluates to 180. -/
theorem C8_calculateAngle_contract_witness :
    calculateAngle ⟨0, 0, 0, 1⟩ ⟨1, 0, 0, 1⟩ ⟨3, 0, 0, 1⟩ = 180 :=
  C8_calculateAngle_contract.2.2.1 ⟨0, 0, 0, 1⟩ ⟨1, 0, 0, 1⟩ ⟨3, 0, 0, 1⟩
    (1 / 2) (by norm_num) (by norm_num) (by norm_num)
    (Or.inl (by norm_num))

/-! ## RepCounter lemmas and claims C2, C4, C10 -/

/-- Helper: in ConcentricFirst mode, `update` is the direction mirror of
the EccentricFirst machine. -/
lemma update_concentricFirst_mirror (s : RepState α) (c now : α)
    (hm : s.mode = CountMode.ConcentricFirst) :
    RepCounter.update s c now
      = mirrorState (RepCounter.update (mirrorState s) c now) := by
  rcases s with ⟨cnt, ph, lpt, th, tl, mode, rts, crs, crm, rst⟩
  obtain rfl : mode = CountMode.ConcentricFirst := hm
  cases ph <;> cases crs <;>
    simp [RepCounter.update, mirrorState, mirrorPhase, mirrorMode] <;>
    split_ifs <;>
    simp [mirrorState, mirrorPhase, mirrorMode]

/-- C2: with well-formed thresholds (`thresholdLow < thresholdHigh`),
`RepCounter.update` in EccentricFirst mode implements the spec's
transition table row by row (including the 0.1 deadband out of Bottom and
the rep-completion push with mid-falls-back-to-now), and ConcentricFirst
is the direction-mirrored equivalent. -/
theorem C2_repcounter_transition_table :
    (∀ (s : RepState ℚ) (c now : ℚ), s.mode = CountMode.EccentricFirst →
      s.thresholdLow < s.thresholdHigh →
      (((s.currentPhase = RepPhase.Rest ∨ s.currentPhase = RepPhase.Top) →
        (s.thresholdLow < c →
          RepCounter.update s c now
            = { s with currentPhase := RepPhase.Eccentric,
                       currentRepStartTime :=
                         if s.currentRepStartTime = none
                         then some (now - s.recordingStartTime)
                         else s.currentRepStartTime }) ∧
        (c ≤ s.thresholdLow → RepCounter.update s c now = s)) ∧
      (s.currentPhase = RepPhase.Eccentric →
        (s.thresholdHigh ≤ c →
          RepCounter.update s c now
            = { s with currentPhase := RepPhase.Bottom,
                       lastPhaseTimestamp := now,
                       currentRepMidTime := some (now - s.recordingStartTime) }) ∧
        (c < s.thresholdLow →
          RepCounter.update s c now
            = { s with currentPhase := RepPhase.Top,
                       currentRepStartTime := none,
                       currentRepMidTime := none }) ∧
        (s.thresholdLow ≤ c → c < s.thresholdHigh →
          RepCounter.update s c now = s)) ∧
      (s.currentPhase = RepPhase.Bottom →
        ((RepCounter.update s c now).currentPhase = RepPhase.Concentric
            ↔ c < s.thresholdHigh - 1 / 10) ∧
        (s.thresholdHigh - 1 / 10 ≤ c → RepCounter.update s c now = s)) ∧
      (s.currentPhase = RepPhase.Concentric →
        (∀ st : ℚ, c ≤ s.thresholdLow → s.currentRepStartTime = some st →
          RepCounter.update s c now
            = { s with count := s.count + 1,
                       currentPhase := RepPhase.Top,
                       lastPhaseTimestamp := now,
                       repTimestamps := s.repTimestamps
                         ++ [⟨st, jsFalsyOr s.currentRepMidTime (now - s.recordingStartTime),
                              now - s.recordingStartTime⟩],
                       currentRepStartTime := none,
                       currentRepMidTime := none } ∧
          (s.currentRepMidTime = none →
            jsFalsyOr s.currentRepMidTime (now - s.recordingStartTime)
              = now - s.recordingStartTime)) ∧
        (s.thresholdHigh < c →
          RepCounter.update s c now = { s with currentPhase := RepPhase.Bottom }) ∧
        (s.thresholdLow < c → c ≤ s.thresholdHigh →
          RepCounter.update s c now = s)))) ∧
    (∀ (s : RepState ℚ) (c now : ℚ), s.mode = CountMode.ConcentricFirst →
      RepCounter.update s c now
        = mirrorState (RepCounter.update (mirrorState s) c now)) := by
  constructor
  · intro s c now hm hth
    rcases s with ⟨cnt, ph, lpt, th, tl, mode, rts, crs, crm, rst⟩
    obtain rfl : mode = CountMode.EccentricFirst := hm
    replace hth : tl < th := hth
    refine ⟨?_, ?_, ?_, ?_⟩
    · rintro (rfl | rfl) <;> refine ⟨fun hltc => ?_, fun hlec => ?_⟩
      all_goals
        first
          | (replace hltc : tl < c := hltc
             cases crs <;> simp [RepCounter.update, hltc])
          | (replace hlec : c ≤ tl := hlec
             cases crs <;> simp [RepCounter.update, not_lt.mpr hlec])
    · rintro rfl
      refine ⟨fun hge => ?_, fun hlt => ?_, fun h1 h2 => ?_⟩
      · replace hge : th ≤ c := hge
        simp only [RepCounter.update]
        split_ifs with ha hb <;> first | (exfalso; linarith) | simp
      · replace hlt : c < tl := hlt
        simp only [RepCounter.update]
        split_ifs with ha hb <;> first | (exfalso; linarith) | simp
      · replace h1 : tl ≤ c := h1
        replace h2 : c < th := h2
        simp only [RepCounter.update]
        split_ifs with ha hb <;> first | (exfalso; linarith) | rfl
    · rintro rfl
      refine ⟨?_, fun hge => ?_⟩
      · simp only [RepCounter.update]
        split_ifs with h
        · exact iff_of_true rfl h
        · exact iff_of_false (by simp) h
      · replace hge : th - 1 / 10 ≤ c := hge
        simp only [RepCounter.update]
        split_ifs with h <;> first | (exfalso; linarith) | rfl
    · rintro rfl
      refine ⟨fun st hcle hst => ?_, fun hgt => ?_, fun h1 h2 => ?_⟩
      · replace hcle : c ≤ tl := hcle
        replace hst : crs = some st := hst
        subst hst
        constructor
        · simp only [RepCounter.update]
          split_ifs with h <;> first | (exfalso; exact h hcle) | simp
        · intro hmid
          replace hmid : crm = none := hmid
          subst hmid
          simp [jsFalsyOr]
      · replace hgt : th < c := hgt
        simp only [RepCounter.update]
        split_ifs with ha hb <;>
          first
            | (exfalso; linarith)
            | simp
      · replace h1 : tl < c := h1
        replace h2 : c ≤ th := h2
        simp only [RepCounter.update]
        split_ifs with ha hb <;> first | (exfalso; linarith) | rfl
  · intro s c now hm
    exact update_concentricFirst_mirror s c now hm

/-- Witness for C2: the Rest row fires on a fresh default counter at
completion 0.4, and the mirror equation holds at the same inputs. -/
theorem C2_repcounter_transition_table_witness :
    (RepCounter.update (defaultRep CountMode.EccentricFirst : RepState ℚ)
        (2/5) 5).currentPhase = RepPhase.Eccentric ∧
    RepCounter.update (defaultRep CountMode.ConcentricFirst : RepState ℚ) (2/5) 5
      = mirrorState (RepCounter.update
          (mirrorState (defaultRep CountMode.ConcentricFirst)) (2/5) 5) := by
  constructor
  · have h := ((C2_repcounter_transition_table.1
      (defaultRep CountMode.EccentricFirst) (2/5) 5 rfl
      (by norm_num [defaultRep, freshRep])).1
      (Or.inl rfl)).1 (by norm_num [defaultRep, freshRep])
    rw [h]
  · exact C2_repcounter_transition_table.2
      (defaultRep CountMode.ConcentricFirst) (2/5) 5 rfl

/-- C4 counterexample: the spec predicts `count = 1` after the sequence
`[0.4, 0.2, 0.4, 0.6, 0.2]` on a fresh default EccentricFirst counter,
but the code ends the sequence still in the Concentric phase with
`count = 0` (the final 0.2 sample only performs the Bottom → Concentric
transition; the count increments on a later `≤ thresholdLow` sample). -/
theorem C4_spotcheck_counterexample :
    (runPairs (defaultRep CountMode.EccentricFirst : RepState ℚ) c4Seq).count ≠ 1 := by
  norm_num [runPairs, c4Seq, defaultRep, freshRep, RepCounter.update, jsFalsyOr]

/-- C4 amended: the sequence yields `count = 0` and ends in the
Concentric phase, and the false partial rise leaves no dangling
`RepTimestamp` in the recorded history (one more `≤ 0.35` sample would
complete the rep). -/
theorem C4_spotcheck_amended :
    (runPairs (defaultRep CountMode.EccentricFirst : RepState ℚ) c4Seq).count = 0 ∧
    (runPairs (defaultRep CountMode.EccentricFirst : RepState ℚ) c4Seq).currentPhase
      = RepPhase.Concentric ∧
    (runPairs (defaultRep CountMode.EccentricFirst : RepState ℚ) c4Seq).repTimestamps
      = [] ∧
    (runPairs (defaultRep CountMode.EccentricFirst : RepState ℚ)
        (c4Seq ++ [(1/5, 5)])).count = 1 := by
  refine ⟨?_, ?_, ?_, ?_⟩ <;>
    norm_num [runPairs, c4Seq, defaultRep, freshRep, RepCounter.update, jsFalsyOr]

/-- Helper: one `update` call adds at most one unit of potential. -/
lemma potential_update_le (s : RepState α) (c now : α) :
    potential (RepCounter.update s c now) ≤ potential s + 1 := by
  rcases s with ⟨cnt, ph, lpt, th, tl, mode, rts, crs, crm, rst⟩
  cases mode <;> cases ph <;> cases crs <;>
    simp only [RepCounter.update, potential, phaseRank] <;>
    split_ifs <;>
    (try simp [potential, phaseRank]) <;>
    omega

/-- Helper: one `update` call increments the count by at most one and
moves the phase along at most one edge of the cycle. -/
lemma update_single_step (s : RepState α) (c now : α) :
    (RepCounter.update s c now).count ≤ s.count + 1 ∧
    (RepCounter.update s c now).currentPhase ∈ nextPhases s.mode s.currentPhase := by
  rcases s with ⟨cnt, ph, lpt, th, tl, mode, rts, crs, crm, rst⟩
  cases mode <;> cases ph <;> cases crs <;>
    simp only [RepCounter.update, nextPhases] <;>
    split_ifs <;>
    simp_arith [nextPhases]

/-- Helper: potential grows by at most the number of processed samples. -/
lemma potential_runPairs_le (l : List (α × α)) :
    ∀ s : RepState α, potential (runPairs s l) ≤ potential s + l.length := by
  induction l with
  | nil => intro s; simp [runPairs]
  | cons p tl ih =>
    intro s
    have h1 := potential_update_le s p.1 p.2
    have h2 := ih (RepCounter.update s p.1 p.2)
    have hstep : runPairs s (p :: tl) = runPairs (RepCounter.update s p.1 p.2) tl := rfl
    rw [hstep]
    simp only [List.length_cons]
    omega

/-- C10: every single `RepCounter.update` call advances the phase by at
most one transition of the cycle and increases the count by at most one;
consequently, from a fresh counter (Rest phase), no sequence of three or
fewer update calls can make the count reach one, whatever completion
values are fed. -/
theorem C10_single_transition_per_update :
    (∀ (s : RepState ℚ) (c now : ℚ),
      (RepCounter.update s c now).count ≤ s.count + 1 ∧
      (RepCounter.update s c now).currentPhase ∈ nextPhases s.mode s.currentPhase) ∧
    (∀ (mode : CountMode) (low high : ℚ) (l : List (ℚ × ℚ)), l.length ≤ 3 →
      (runPairs (freshRep mode low high) l).count = 0) := by
  constructor
  · intro s c now
    exact update_single_step s c now
  · intro mode low high l hlen
    by_contra hc
    have hcount : 1 ≤ (runPairs (freshRep mode low high) l).count := by omega
    have h1 := potential_runPairs_le l (freshRep mode low high : RepState ℚ)
    have h0 : potential (freshRep mode low high : RepState ℚ) = 0 := by
      cases mode <;> simp [potential, freshRep, phaseRank]
    have h2 : 4 ≤ potential (runPairs (freshRep mode low high) l) := by
      simp only [potential]
      omega
    omega

/-- Witness for C10: three updates that walk Rest → Eccentric → Bottom →
Concentric still show `count = 0`. -/
theorem C10_single_transition_per_update_witness :
    (runPairs (freshRep CountMode.EccentricFirst (35/100) (55/100) : RepState ℚ)
      [(2/5, 0), (3/5, 1), (1/5, 2)]).count = 0 :=
  C10_single_transition_per_update.2 CountMode.EccentricFirst (35/100) (55/100)
    [(2/5, 0), (3/5, 1), (1/5, 2)] (by decide)

/-! ## Classifier lemmas and claim C9 -/

/-- Helper: diagonal-line variant of `calculateAngle_diag` with the y
coordinates given by equations instead of syntactic `x + k` form. -/
lemma calculateAngle_diag_pts (k : ℝ) {ax ay bx yb cx cy za zb zc va vb vc : ℝ}
    (hay : ay = ax + k) (hby : yb = bx + k) (hcy : cy = cx + k)
    (h1 : ax < bx) (h2 : bx < cx) :
    calculateAngle ⟨ax, ay, za, va⟩ ⟨bx, yb, zb, vb⟩ ⟨cx, cy, zc, vc⟩ = 180 := by
  subst hay
  subst hby
  subst hcy
  exact calculateAngle_diag h1 h2

/-- Helper: the first branch of the classifier cascade: any 33-landmark
frame meeting the global T-Bar-Row whole-body-incline signature
classifies as T-Bar Row, whatever the rest of the frame looks like. -/
lemma classify_tbar_first_branch (lm : List PoseLandmark)
    (hlen : ¬ lm.length < 33)
    (hstraight : |180 - getAvgAngle lm 11 23 25 12 24 26| < 30)
    (hlegs : |180 - getAvgAngle lm 23 25 27 24 26 28| < 30)
    (h20 : atan2
        (|((lget lm 11).x + (lget lm 12).x) / 2 - ((lget lm 27).x + (lget lm 28).x) / 2|)
        (|((lget lm 11).y + (lget lm 12).y) / 2 - ((lget lm 27).y + (lget lm 28).y) / 2|)
        * (180 / π) > 20)
    (h80 : atan2
        (|((lget lm 11).x + (lget lm 12).x) / 2 - ((lget lm 27).x + (lget lm 28).x) / 2|)
        (|((lget lm 11).y + (lget lm 12).y) / 2 - ((lget lm 27).y + (lget lm 28).y) / 2|)
        * (180 / π) < 80)
    (hlow : ((lget lm 15).y + (lget lm 16).y) / 2 > ((lget lm 11).y + (lget lm 12).y) / 2) :
    classifyExercise lm = some ExerciseType.TBarRow := by
  simp only [classifyExercise]
  rw [if_neg hlen, if_pos ⟨⟨hstraight, hlegs⟩, ⟨h20, h80⟩, hlow⟩]

lemma lget_tbar_11 : lget tbarFrame 11 = ⟨0.2, 0.2, 0, 1⟩ := rfl
lemma lget_tbar_12 : lget tbarFrame 12 = ⟨0.2, 0.2, 0, 1⟩ := rfl
lemma lget_tbar_15 : lget tbarFrame 15 = ⟨0.3, 0.6, 0, 1⟩ := rfl
lemma lget_tbar_16 : lget tbarFrame 16 = ⟨0.3, 0.6, 0, 1⟩ := rfl
lemma lget_tbar_23 : lget tbarFrame 23 = ⟨0.4, 0.4, 0, 1⟩ := rfl
lemma lget_tbar_24 : lget tbarFrame 24 = ⟨0.4, 0.4, 0, 1⟩ := rfl
lemma lget_tbar_25 : lget tbarFrame 25 = ⟨0.55, 0.55, 0, 1⟩ := rfl
lemma lget_tbar_26 : lget tbarFrame 26 = ⟨0.55, 0.55, 0, 1⟩ := rfl
lemma lget_tbar_27 : lget tbarFrame 27 = ⟨0.7, 0.7, 0, 1⟩ := rfl
lemma lget_tbar_28 : lget tbarFrame 28 = ⟨0.7, 0.7, 0, 1⟩ := rfl

lemma tbarFrame_length : ¬ tbarFrame.length < 33 := by
  norm_num [tbarFrame]

lemma tbarFrame_hipAngle : getAvgAngle tbarFrame 11 23 25 12 24 26 = 180 := by
  have h1 : calculateAngle ⟨0.2, 0.2, 0, 1⟩ ⟨0.4, 0.4, 0, 1⟩ ⟨0.55, 0.55, 0, 1⟩ = 180 :=
    calculateAngle_diag_pts 0 (by norm_num) (by norm_num) (by norm_num)
      (by norm_num) (by norm_num)
  simp only [getAvgAngle, lget_tbar_11, lget_tbar_12, lget_tbar_23, lget_tbar_24,
    lget_tbar_25, lget_tbar_26, h1]
  norm_num

lemma tbarFrame_kneeAngle : getAvgAngle tbarFrame 23 25 27 24 26 28 = 180 := by
  have h1 : calculateAngle ⟨0.4, 0.4, 0, 1⟩ ⟨0.55, 0.55, 0, 1⟩ ⟨0.7, 0.7, 0, 1⟩ = 180 :=
    calculateAngle_diag_pts 0 (by norm_num) (by norm_num) (by norm_num)
      (by norm_num) (by norm_num)
  simp only [getAvgAngle, lget_tbar_23, lget_tbar_24, lget_tbar_25, lget_tbar_26,
    lget_tbar_27, lget_tbar_28, h1]
  norm_num

lemma tbarFrame_inclination :
    atan2
      (|((lget tbarFrame 11).x + (lget tbarFrame 12).x) / 2
        - ((lget tbarFrame 27).x + (lget tbarFrame 28).x) / 2|)
      (|((lget tbarFrame 11).y + (lget tbarFrame 12).y) / 2
        - ((lget tbarFrame 27).y + (lget tbarFrame 28).y) / 2|)
      * (180 / π) = 45 := by
  have hval : ((0.2 : ℝ) + 0.2) / 2 - (0.7 + 0.7) / 2 = -(1/2) := by norm_num
  simp only [lget_tbar_11, lget_tbar_12, lget_tbar_27, lget_tbar_28]
  simp only [hval, abs_neg]
  rw [abs_of_pos (by norm_num : (0:ℝ) < 1/2),
    atan2_diag_of_pos (by norm_num : (0:ℝ) < 1/2)]
  have hpi := Real.pi_ne_zero
  field_simp
  ring

lemma tbarFrame_wristsLow :
    ((lget tbarFrame 15).y + (lget tbarFrame 16).y) / 2
      > ((lget tbarFrame 11).y + (lget tbarFrame 12).y) / 2 := by
  simp only [lget_tbar_15, lget_tbar_16, lget_tbar_11, lget_tbar_12]
  norm_num

/-- Helper: the synthetic 45-degree frame classifies as T-Bar Row. -/
lemma classify_tbarFrame : classifyExercise tbarFrame = some ExerciseType.TBarRow :=
  classify_tbar_first_branch tbarFrame tbarFrame_length
    (by rw [tbarFrame_hipAngle]; norm_num)
    (by rw [tbarFrame_kneeAngle]; norm_num)
    (by rw [tbarFrame_inclination]; norm_num)
    (by rw [tbarFrame_inclination]; norm_num)
    tbarFrame_wristsLow

/-- C9: every 33-landmark frame satisfying the global T-Bar-Row
whole-body-incline signature (hip and knee straightness deviations below
30 degrees, body inclination strictly between 20 and 80 degrees, wrists
below shoulders) classifies as T-Bar Row — the cascade returns on first
match, so any later rule the frame might also satisfy (such as the
standing Barbell Biceps Curl rule) is never consulted. -/
theorem C9_classifier_tbar_priority (lm : List PoseLandmark)
    (hlen : ¬ lm.length < 33)
    (hstraight : |180 - getAvgAngle lm 11 23 25 12 24 26| < 30)
    (hlegs : |180 - getAvgAngle lm 23 25 27 24 26 28| < 30)
    (h20 : atan2
        (|((lget lm 11).x + (lget lm 12).x) / 2 - ((lget lm 27).x + (lget lm 28).x) / 2|)
        (|((lget lm 11).y + (lget lm 12).y) / 2 - ((lget lm 27).y + (lget lm 28).y) / 2|)
        * (180 / π) > 20)
    (h80 : atan2
        (|((lget lm 11).x + (lget lm 12).x) / 2 - ((lget lm 27).x + (lget lm 28).x) / 2|)
        (|((lget lm 11).y + (lget lm 12).y) / 2 - ((lget lm 27).y + (lget lm 28).y) / 2|)
        * (180 / π) < 80)
    (hlow : ((lget lm 15).y + (lget lm 16).y) / 2 > ((lget lm 11).y + (lget lm 12).y) / 2) :
    classifyExercise lm = some ExerciseType.TBarRow :=
  classify_tbar_first_branch lm hlen hstraight hlegs h20 h80 hlow

/-- Witness for C9: the synthetic 45-degree whole-body-incline frame
satisfies every hypothesis and classifies as T-Bar Row. -/
theorem C9_classifier_tbar_priority_witness :
    classifyExercise tbarFrame = some ExerciseType.TBarRow :=
  C9_classifier_tbar_priority tbarFrame tbarFrame_length
    (by rw [tbarFrame_hipAngle]; norm_num)
    (by rw [tbarFrame_kneeAngle]; norm_num)
    (by rw [tbarFrame_inclination]; norm_num)
    (by rw [tbarFrame_inclination]; norm_num)
    tbarFrame_wristsLow

/-! ## Orchestrator lemmas and claims C3, C5 -/

/-- Helper: a frame the classifier accepts has at least 33 landmarks. -/
lemma classify_some_length {f : List PoseLandmark} {e : ExerciseType}
    (h : classifyExercise f = some e) : ¬ f.length < 33 := by
  intro hlt
  rw [classifyExercise, if_pos hlt] at h
  exact absurd h (by simp)

/-- Helper: checked indexing agrees with defaulted indexing in range. -/
lemma get?_eq_lget {f : List PoseLandmark} {i : ℕ} (h : i < f.length) :
    f.get? i = some (lget f i) := by
  rw [List.get?_eq_get h]
  simp [lget, List.getD, List.getElem?_eq_getElem h]

/-- Helper: every lock threshold is at least 4. -/
lemma lockThreshold_ge_four (e : ExerciseType) : 4 ≤ lockThreshold e := by
  cases e <;> decide

/-- Helper: one `analyzeFrame` step in Auto-Detect mode, unlocked, on a
frame classified as a non-Plank, non-Push-Up candidate `E`: the
consecutive counter advances (or resets to 1 on a candidate change) and
the engine locks exactly when the counter strictly exceeds the
threshold. -/
lemma analyzeFrame_unlocked_candidate (s : EngineState) (f : List PoseLandmark)
    (E : ExerciseType)
    (hcur : s.currentExercise = ExerciseType.AutoDetect)
    (hlock : s.isLocked = false)
    (hcl : classifyExercise f = some E)
    (hEp : E ≠ ExerciseType.Plank) (hEu : E ≠ ExerciseType.PushUp) :
    analyzeFrame s f =
      (if (if s.potentialExercise = some E then s.consecutiveFrames + 1 else 1)
          > lockThreshold E then
        some ({ s with
            shoulderHistory :=
              pushShoulder s.shoulderHistory (((lget f 11).y + (lget f 12).y) / 2),
            potentialExercise := some E,
            consecutiveFrames :=
              if s.potentialExercise = some E then s.consecutiveFrames + 1 else 1,
            lockedExercise := some E, isLocked := true },
          RouteResult.route E)
      else
        some ({ s with
            shoulderHistory :=
              pushShoulder s.shoulderHistory (((lget f 11).y + (lget f 12).y) / 2),
            potentialExercise := some E,
            consecutiveFrames :=
              if s.potentialExercise = some E then s.consecutiveFrames + 1 else 1 },
          RouteResult.detecting (some E))) := by
  have hlen33 : ¬ f.length < 33 := classify_some_length hcl
  have h11 : f.get? 11 = some (lget f 11) := get?_eq_lget (by omega)
  have h12 : f.get? 12 = some (lget f 12) := get?_eq_lget (by omega)
  have hlen0 : ¬ f.length = 0 := by omega
  rcases s with ⟨cur, lk, le, cf0, pot, hist0⟩
  obtain rfl : cur = ExerciseType.AutoDetect := hcur
  obtain rfl : lk = false := hlock
  simp only [List.get?_eq_getElem?] at h11 h12
  simp [analyzeFrame, hlen0, h11, h12, hcl, hEp, hEu]

/-- Helper: one `analyzeFrame` step in Auto-Detect mode while locked:
the classifier is never consulted; the frame routes to the (possibly
Plank-to-Push-Up switched) locked exercise. -/
lemma analyzeFrame_locked (s : EngineState) (f : List PoseLandmark)
    (l11 l12 : PoseLandmark) (E : ExerciseType)
    (hcur : s.currentExercise = ExerciseType.AutoDetect)
    (hlock : s.isLocked = true)
    (hle : s.lockedExercise = some E)
    (h11 : f.get? 11 = some l11) (h12 : f.get? 12 = some l12) :
    analyzeFrame s f =
      some ({ s with
          shoulderHistory := pushShoulder s.shoulderHistory ((l11.y + l12.y) / 2),
          lockedExercise := some (if E = ExerciseType.Plank ∧
              listMax (pushShoulder s.shoulderHistory ((l11.y + l12.y) / 2))
                - listMin (pushShoulder s.shoulderHistory ((l11.y + l12.y) / 2)) > 0.05
            then ExerciseType.PushUp else E) },
        RouteResult.route (if E = ExerciseType.Plank ∧
            listMax (pushShoulder s.shoulderHistory ((l11.y + l12.y) / 2))
              - listMin (pushShoulder s.shoulderHistory ((l11.y + l12.y) / 2)) > 0.05
          then ExerciseType.PushUp else E)) := by
  have hlen0 : ¬ f.length = 0 := by
    intro h
    rw [List.length_eq_zero] at h
    subst h
    simp at h11
  rcases s with ⟨cur, lk, le, cf0, pot, hist0⟩
  obtain rfl : cur = ExerciseType.AutoDetect := hcur
  obtain rfl : lk = true := hlock
  obtain rfl : le = some E := hle
  simp only [List.get?_eq_getElem?] at h11 h12
  simp [analyzeFrame, hlen0, h11, h12]

/-- Helper: running a pending (unlocked) candidate streak that stays
within the threshold leaves the engine unlocked with the counter advanced
by the number of frames. -/
lemma engineRun_pending (E : ExerciseType)
    (hEp : E ≠ ExerciseType.Plank) (hEu : E ≠ ExerciseType.PushUp) :
    ∀ (fs : List (List PoseLandmark)) (s : EngineState),
      s.currentExercise = ExerciseType.AutoDetect →
      s.isLocked = false →
      s.potentialExercise = some E →
      (∀ f ∈ fs, classifyExercise f = some E) →
      s.consecutiveFrames + fs.length ≤ lockThreshold E →
      ∃ s', engineRun s fs = some s' ∧ s'.isLocked = false ∧
        s'.currentExercise = ExerciseType.AutoDetect ∧
        s'.potentialExercise = some E ∧
        s'.consecutiveFrames = s.consecutiveFrames + fs.length := by
  intro fs
  induction fs with
  | nil =>
    intro s h1 h2 h3 _ _
    exact ⟨s, rfl, h2, h1, h3, by simp⟩
  | cons f fs ih =>
    intro s h1 h2 h3 hcl hbound
    have hstep := analyzeFrame_unlocked_candidate s f E h1 h2
      (hcl f (by simp)) hEp hEu
    have hcf : (if s.potentialExercise = some E then s.consecutiveFrames + 1 else 1)
        = s.consecutiveFrames + 1 := by
      rw [h3]
      simp
    rw [hcf] at hstep
    have hlen : (f :: fs).length = fs.length + 1 := by simp
    rw [hlen] at hbound
    have hnolock : ¬ (s.consecutiveFrames + 1 > lockThreshold E) := by omega
    rw [if_neg hnolock] at hstep
    have hrun : engineRun s (f :: fs) =
        engineRun { s with
          shoulderHistory :=
            pushShoulder s.shoulderHistory (((lget f 11).y + (lget f 12).y) / 2),
          potentialExercise := some E,
          consecutiveFrames := s.consecutiveFrames + 1 } fs := by
      simp only [engineRun, hstep]
    obtain ⟨s', hs1, hs2, hs3, hs4, hs5⟩ := ih
      { s with
        shoulderHistory :=
          pushShoulder s.shoulderHistory (((lget f 11).y + (lget f 12).y) / 2),
        potentialExercise := some E,
        consecutiveFrames := s.consecutiveFrames + 1 }
      h1 h2 rfl (fun g hg => hcl g (by simp [hg]))
      (by
        show s.consecutiveFrames + 1 + fs.length ≤ lockThreshold E
        omega)
    refine ⟨s', ?_, hs2, hs3, hs4, ?_⟩
    · rw [hrun]
      exact hs1
    · rw [hs5, hlen]
      show s.consecutiveFrames + 1 + fs.length = s.consecutiveFrames + (fs.length + 1)
      omega

/-- Helper: a pending candidate streak whose last frame pushes the
counter strictly past the threshold commits the lock to `E`. -/
lemma engineRun_locks (E : ExerciseType)
    (hEp : E ≠ ExerciseType.Plank) (hEu : E ≠ ExerciseType.PushUp) :
    ∀ (fs : List (List PoseLandmark)) (f0 : List PoseLandmark) (s : EngineState),
      s.currentExercise = ExerciseType.AutoDetect →
      s.isLocked = false →
      s.potentialExercise = some E →
      classifyExercise f0 = some E →
      (∀ f ∈ fs, classifyExercise f = some E) →
      s.consecutiveFrames + (fs.length + 1) = lockThreshold E + 1 →
      ∃ s', engineRun s (f0 :: fs) = some s' ∧ s'.isLocked = true ∧
        s'.lockedExercise = some E := by
  intro fs
  induction fs with
  | nil =>
    intro f0 s h1 h2 h3 hc0 _ hsum
    have hstep := analyzeFrame_unlocked_candidate s f0 E h1 h2 hc0 hEp hEu
    have hcf : (if s.potentialExercise = some E then s.consecutiveFrames + 1 else 1)
        = s.consecutiveFrames + 1 := by
      rw [h3]
      simp
    rw [hcf] at hstep
    have hlock : s.consecutiveFrames + 1 > lockThreshold E := by
      simp at hsum
      omega
    rw [if_pos hlock] at hstep
    refine ⟨{ s with
        shoulderHistory :=
          pushShoulder s.shoulderHistory (((lget f0 11).y + (lget f0 12).y) / 2),
        potentialExercise := some E,
        consecutiveFrames := s.consecutiveFrames + 1,
        lockedExercise := some E, isLocked := true }, ?_, rfl, rfl⟩
    simp only [engineRun, hstep]
  | cons f1 fs ih =>
    intro f0 s h1 h2 h3 hc0 hcl hsum
    have hstep := analyzeFrame_unlocked_candidate s f0 E h1 h2 hc0 hEp hEu
    have hcf : (if s.potentialExercise = some E then s.consecutiveFrames + 1 else 1)
        = s.consecutiveFrames + 1 := by
      rw [h3]
      simp
    rw [hcf] at hstep
    have hnolock : ¬ (s.consecutiveFrames + 1 > lockThreshold E) := by
      simp at hsum
      omega
    rw [if_neg hnolock] at hstep
    have hrun : engineRun s (f0 :: f1 :: fs) =
        engineRun { s with
          shoulderHistory :=
            pushShoulder s.shoulderHistory (((lget f0 11).y + (lget f0 12).y) / 2),
          potentialExercise := some E,
          consecutiveFrames := s.consecutiveFrames + 1 } (f1 :: fs) := by
      simp only [engineRun, hstep]
    obtain ⟨s', hs1, hs2, hs3⟩ := ih f1
      { s with
        shoulderHistory :=
          pushShoulder s.shoulderHistory (((lget f0 11).y + (lget f0 12).y) / 2),
        potentialExercise := some E,
        consecutiveFrames := s.consecutiveFrames + 1 }
      h1 h2 rfl (hcl f1 (by simp)) (fun g hg => hcl g (by simp [hg]))
      (by
        show s.consecutiveFrames + 1 + (fs.length + 1) = lockThreshold E + 1
        simp at hsum
        omega)
    refine ⟨s', ?_, hs2, hs3⟩
    rw [hrun]
    exact hs1

/-- C3: in Auto-Detect mode with an unlocked engine, a candidate
exercise `E` (outside the Plank / Push-Up movement-override pair) whose
lock threshold is `N = lockThreshold E`, fed for exactly `N` consecutive
frames, does not lock — the consecutive-frame count must strictly exceed
the threshold; fed for `N + 1` frames it locks to `E`; and once locked,
every frame with visible shoulders routes to the locked exercise without
the classifier being consulted at all. -/
theorem C3_lock_requires_strict_excess (E : ExerciseType)
    (hEp : E ≠ ExerciseType.Plank) (hEu : E ≠ ExerciseType.PushUp) :
    (∀ fs : List (List PoseLandmark),
      (∀ f ∈ fs, classifyExercise f = some E) →
      fs.length = lockThreshold E →
      ∃ s', engineRun engineAuto fs = some s' ∧ s'.isLocked = false) ∧
    (∀ fs : List (List PoseLandmark),
      (∀ f ∈ fs, classifyExercise f = some E) →
      fs.length = lockThreshold E + 1 →
      ∃ s', engineRun engineAuto fs = some s' ∧ s'.isLocked = true ∧
        s'.lockedExercise = some E) ∧
    (∀ (s : EngineState) (f : List PoseLandmark) (l11 l12 : PoseLandmark),
      s.currentExercise = ExerciseType.AutoDetect → s.isLocked = true →
      s.lockedExercise = some E →
      f.get? 11 = some l11 → f.get? 12 = some l12 →
      ∃ s2, analyzeFrame s f = some (s2, RouteResult.route E) ∧
        s2.isLocked = true ∧ s2.lockedExercise = some E) := by
  have hN := lockThreshold_ge_four E
  refine ⟨?_, ?_, ?_⟩
  · intro fs hcl hlen
    cases fs with
    | nil =>
      exfalso
      simp at hlen
      omega
    | cons f0 rest =>
      have hstep := analyzeFrame_unlocked_candidate engineAuto f0 E rfl rfl
        (hcl f0 (by simp)) hEp hEu
      have hcf : (if engineAuto.potentialExercise = some E then
          engineAuto.consecutiveFrames + 1 else 1) = 1 := by
        simp [engineAuto, setExercise, engineInit]
      rw [hcf] at hstep
      have hngt : ¬ ((1 : ℕ) > lockThreshold E) := by omega
      rw [if_neg hngt] at hstep
      have hrun : engineRun engineAuto (f0 :: rest) =
          engineRun { engineAuto with
            shoulderHistory :=
              pushShoulder engineAuto.shoulderHistory
                (((lget f0 11).y + (lget f0 12).y) / 2),
            potentialExercise := some E,
            consecutiveFrames := 1 } rest := by
        simp only [engineRun, hstep]
      have hrest : 1 + rest.length ≤ lockThreshold E := by
        simp at hlen
        omega
      obtain ⟨s', hs1, hs2, _, _, _⟩ := engineRun_pending E hEp hEu rest
        { engineAuto with
          shoulderHistory :=
            pushShoulder engineAuto.shoulderHistory
              (((lget f0 11).y + (lget f0 12).y) / 2),
          potentialExercise := some E,
          consecutiveFrames := 1 }
        rfl rfl rfl (fun g hg => hcl g (by simp [hg]))
        (by
          show 1 + rest.length ≤ lockThreshold E
          exact hrest)
      exact ⟨s', by rw [hrun]; exact hs1, hs2⟩
  · intro fs hcl hlen
    cases fs with
    | nil =>
      exfalso
      simp at hlen
    | cons f0 rest =>
      cases rest with
      | nil =>
        exfalso
        simp at hlen
        omega
      | cons f1 rest' =>
        have hstep := analyzeFrame_unlocked_candidate engineAuto f0 E rfl rfl
          (hcl f0 (by simp)) hEp hEu
        have hcf : (if engineAuto.potentialExercise = some E then
            engineAuto.consecutiveFrames + 1 else 1) = 1 := by
          simp [engineAuto, setExercise, engineInit]
        rw [hcf] at hstep
        have hngt : ¬ ((1 : ℕ) > lockThreshold E) := by omega
        rw [if_neg hngt] at hstep
        have hrun : engineRun engineAuto (f0 :: f1 :: rest') =
            engineRun { engineAuto with
              shoulderHistory :=
                pushShoulder engineAuto.shoulderHistory
                  (((lget f0 11).y + (lget f0 12).y) / 2),
              potentialExercise := some E,
              consecutiveFrames := 1 } (f1 :: rest') := by
          simp only [engineRun, hstep]
        obtain ⟨s', hs1, hs2, hs3⟩ := engineRun_locks E hEp hEu rest' f1
          { engineAuto with
            shoulderHistory :=
              pushShoulder engineAuto.shoulderHistory
                (((lget f0 11).y + (lget f0 12).y) / 2),
            potentialExercise := some E,
            consecutiveFrames := 1 }
          rfl rfl rfl (hcl f1 (by simp)) (fun g hg => hcl g (by simp [hg]))
          (by
            show 1 + (rest'.length + 1) = lockThreshold E + 1
            simp at hlen
            omega)
        exact ⟨s', by rw [hrun]; exact hs1, hs2, hs3⟩
  · intro s f l11 l12 hcur hlock hle h11 h12
    have h := analyzeFrame_locked s f l11 l12 E hcur hlock hle h11 h12
    have hcond : ¬ (E = ExerciseType.Plank ∧
        listMax (pushShoulder s.shoulderHistory ((l11.y + l12.y) / 2))
          - listMin (pushShoulder s.shoulderHistory ((l11.y + l12.y) / 2)) > 0.05) := by
      rintro ⟨h1, -⟩
      exact hEp h1
    rw [if_neg hcond] at h
    exact ⟨_, h, hlock, rfl⟩

/-- Witness for C3: six T-Bar frames leave the engine unlocked, a seventh
locks it to T-Bar Row, and a locked engine routes a frame to T-Bar Row. -/
theorem C3_lock_requires_strict_excess_witness :
    (∃ s', engineRun engineAuto (List.replicate 6 tbarFrame) = some s' ∧
      s'.isLocked = false) ∧
    (∃ s', engineRun engineAuto (List.replicate 7 tbarFrame) = some s' ∧
      s'.isLocked = true ∧ s'.lockedExercise = some ExerciseType.TBarRow) ∧
    (∃ s2, analyzeFrame c3LockedState tbarFrame
        = some (s2, RouteResult.route ExerciseType.TBarRow) ∧
      s2.isLocked = true ∧ s2.lockedExercise = some ExerciseType.TBarRow) := by
  have h := C3_lock_requires_strict_excess ExerciseType.TBarRow
    (by decide) (by decide)
  refine ⟨?_, ?_, ?_⟩
  · exact h.1 (List.replicate 6 tbarFrame)
      (fun f hf => by rw [List.eq_of_mem_replicate hf]; exact classify_tbarFrame)
      (by simp [lockThreshold])
  · exact h.2.1 (List.replicate 7 tbarFrame)
      (fun f hf => by rw [List.eq_of_mem_replicate hf]; exact classify_tbarFrame)
      (by simp [lockThreshold])
  · exact h.2.2 c3LockedState tbarFrame ⟨0.2, 0.2, 0, 1⟩ ⟨0.2, 0.2, 0, 1⟩
      rfl rfl rfl rfl rfl

/-- C5: once the engine is locked to Plank in Auto-Detect mode, any frame
whose updated 30-sample rolling shoulder-Y buffer has max minus min
greater than 0.05 forces the locked exercise to Push Up on that very
frame, and routes the frame to the Push Up analyzer. -/
theorem C5_plank_movement_forces_pushup (s : EngineState) (f : List PoseLandmark)
    (l11 l12 : PoseLandmark)
    (hcur : s.currentExercise = ExerciseType.AutoDetect)
    (hlock : s.isLocked = true)
    (hle : s.lockedExercise = some ExerciseType.Plank)
    (h11 : f.get? 11 = some l11) (h12 : f.get? 12 = some l12)
    (hvar : listMax (pushShoulder s.shoulderHistory ((l11.y + l12.y) / 2))
        - listMin (pushShoulder s.shoulderHistory ((l11.y + l12.y) / 2)) > 0.05) :
    analyzeFrame s f =
      some ({ s with
          shoulderHistory := pushShoulder s.shoulderHistory ((l11.y + l12.y) / 2),
          lockedExercise := some ExerciseType.PushUp },
        RouteResult.route ExerciseType.PushUp) := by
  have h := analyzeFrame_locked s f l11 l12 ExerciseType.Plank hcur hlock hle h11 h12
  rw [if_pos ⟨rfl, hvar⟩] at h
  exact h

/-- Witness for C5: a Plank-locked engine with history `[0.4]` sees a
frame with shoulder height 0.2; the buffer becomes `[0.4, 0.2]`, the
variance 0.2 exceeds 0.05, and the frame routes to Push Up. -/
theorem C5_plank_movement_forces_pushup_witness :
    analyzeFrame c5LockedState tbarFrame =
      some ({ c5LockedState with
          shoulderHistory := [0.4, 0.2],
          lockedExercise := some ExerciseType.PushUp },
        RouteResult.route ExerciseType.PushUp) := by
  have hpush : pushShoulder c5LockedState.shoulderHistory
      (((⟨0.2, 0.2, 0, 1⟩ : PoseLandmark).y + (⟨0.2, 0.2, 0, 1⟩ : PoseLandmark).y) / 2)
      = [0.4, 0.2] := by
    norm_num [pushShoulder, c5LockedState]
  have hvar : listMax (pushShoulder c5LockedState.shoulderHistory
        (((⟨0.2, 0.2, 0, 1⟩ : PoseLandmark).y + (⟨0.2, 0.2, 0, 1⟩ : PoseLandmark).y) / 2))
      - listMin (pushShoulder c5LockedState.shoulderHistory
        (((⟨0.2, 0.2, 0, 1⟩ : PoseLandmark).y + (⟨0.2, 0.2, 0, 1⟩ : PoseLandmark).y) / 2))
      > 0.05 := by
    rw [hpush]
    simp only [listMax, listMin, List.foldl]
    rw [max_eq_left (by norm_num), min_eq_right (by norm_num)]
    norm_num
  have h := C5_plank_movement_forces_pushup c5LockedState tbarFrame
    ⟨0.2, 0.2, 0, 1⟩ ⟨0.2, 0.2, 0, 1⟩ rfl rfl rfl rfl rfl hvar
  rw [h, hpush]

/-! ## Analyzer lemmas and claims C1, C6, C7 -/

lemma plankFrame_get_11 : plankFrame[11]? = some ⟨1/5, 1/2, 0, 1⟩ := rfl
lemma plankFrame_get_23 : plankFrame[23]? = some ⟨2/5, 1/2, 0, 1⟩ := rfl
lemma plankFrame_get_24 : plankFrame[24]? = some ⟨2/5, 1/2, 0, 0⟩ := rfl
lemma plankFrame_get_25 : plankFrame[25]? = some ⟨3/5, 1/2, 0, 1⟩ := rfl
lemma plankFrame_get_27 : plankFrame[27]? = some ⟨4/5, 1/2, 0, 1⟩ := rfl

lemma plankFrame_hipAngle :
    calculateAngle ⟨1/5, 1/2, 0, 1⟩ ⟨2/5, 1/2, 0, 1⟩ ⟨3/5, 1/2, 0, 1⟩ = 180 :=
  calculateAngle_horiz (by norm_num) (by norm_num)

lemma plankFrame_kneeAngle :
    calculateAngle ⟨2/5, 1/2, 0, 1⟩ ⟨3/5, 1/2, 0, 1⟩ ⟨4/5, 1/2, 0, 1⟩ = 180 :=
  calculateAngle_horiz (by norm_num) (by norm_num)

/-- C1 (code bug): the classifier does return `null` for every frame
with fewer than 33 landmarks, but the engine and the Plank analyzer do
not degrade to the canonical zero feedback: `analyzeFrame` guards only
the empty array and then dereferences landmarks 11 and 12 (a TypeError —
`none` — on a 5-entry array), and `PlankAnalyzer.analyze` has no length
guard at all and dereferences landmark 23 (a TypeError on the empty
array) instead of returning the canonical empty feedback. -/
theorem C1_short_landmark_handling :
    (∀ lm : List PoseLandmark, lm.length < 33 → classifyExercise lm = none) ∧
    analyzeFrame engineInit (List.replicate 5 dfltLm) = none ∧
    (∀ (s : PlankState) (ts : Option ℝ) (w : ℝ),
      PlankAnalyzer.analyze s [] ts w = none) := by
  refine ⟨?_, ?_, ?_⟩
  · intro lm hlt
    rw [classifyExercise, if_pos hlt]
  · simp [analyzeFrame]
  · intro s ts w
    simp [PlankAnalyzer.analyze]

/-- Witness for C1: the 5-entry frame and the empty frame at concrete
states. -/
theorem C1_short_landmark_handling_witness :
    classifyExercise (List.replicate 5 dfltLm) = none ∧
    PlankAnalyzer.analyze plankInit [] none 0 = none :=
  ⟨C1_short_landmark_handling.1 (List.replicate 5 dfltLm) (by simp),
   C1_short_landmark_handling.2.2 plankInit none 0⟩

/-- Helper: one Plank analysis step on the good-form frame, for any
analyzer state, supplied timestamp and wall clock.  The form checks all
pass (both angles are 180 and the hips do not sag), so only the timer
logic remains. -/
lemma plank_step_plankFrame (s : PlankState) (ts : Option ℝ) (w : ℝ) :
    PlankAnalyzer.analyze s plankFrame ts w =
      (let lastT := if s.lastFrameTime = 0 then w else s.lastFrameTime
       let delta := (w - lastT) / 1000
       let cond := s.bufferTime + delta > 0.5
       some
        ({ accumulatedSeconds := if cond then s.accumulatedSeconds + delta
             else s.accumulatedSeconds,
           lastFrameTime := w,
           isHolding := if cond then true else s.isHolding,
           bufferTime := s.bufferTime + delta,
           recordingStartTime := s.recordingStartTime },
         { score := 1,
           breakdown := ⟨1, 1, 0, 1, 1, 1⟩,
           reps := ⌊if cond then s.accumulatedSeconds + delta
             else s.accumulatedSeconds⌋,
           repPhase := if (if cond then true else s.isHolding) then "Holding"
             else "Resisted",
           message := if cond then "Good Plank! Hold it!" else "Stabilizing...",
           correction := "",
           isGoodForm := true,
           jointAngles := [("hip", 180), ("knee", 180)],
           detectedExercise := none })) := by
  norm_num [PlankAnalyzer.analyze, plankFrame_get_11, plankFrame_get_23,
    plankFrame_get_24, plankFrame_get_25, plankFrame_get_27,
    plankFrame_hipAngle, plankFrame_kneeAngle, sup_eq_right, Option.bind]

/-- C6 (code bug): PlankAnalyzer ignores its supplied `timestamp` and
reads the wall clock, so two runs over the identical supplied
(landmarks, timestamp) sequence — timestamps 0 then 33 — produce
different `reps` when the wall clock advances 1000 ms versus 100 ms
between the calls.  The Feedback sequence is therefore not a
deterministic function of the supplied inputs. -/
theorem C6_plank_wallclock_dependence :
    plankRunTwice 1000 2000 = some 1 ∧ plankRunTwice 1000 1100 = some 0 := by
  have h1 := plank_step_plankFrame plankInit (some 0) 1000
  norm_num [plankInit] at h1
  constructor
  · have h2 := plank_step_plankFrame
      { accumulatedSeconds := 0, lastFrameTime := 1000, isHolding := false,
        bufferTime := 0, recordingStartTime := 0 } (some 33) 2000
    norm_num at h2
    simp only [plankRunTwice, plankInit, h1, h2]
  · have h2 := plank_step_plankFrame
      { accumulatedSeconds := 0, lastFrameTime := 1000, isHolding := false,
        bufferTime := 0, recordingStartTime := 0 } (some 33) 1100
    norm_num at h2
    simp only [plankRunTwice, plankInit, h1, h2]

lemma lget_pushup_8 : lget pushupFrame 8 = ⟨0.1, 0.5, 0, 1⟩ := rfl
lemma lget_pushup_11 : lget pushupFrame 11 = ⟨0.3, 0.5, 0, 1⟩ := rfl
lemma lget_pushup_12 : lget pushupFrame 12 = ⟨0.3, 0.5, 0, 1⟩ := rfl
lemma lget_pushup_13 : lget pushupFrame 13 = ⟨0.4, 0.5, 0, 1⟩ := rfl
lemma lget_pushup_14 : lget pushupFrame 14 = ⟨0.4, 0.5, 0, 1⟩ := rfl
lemma lget_pushup_15 : lget pushupFrame 15 = ⟨0.5, 0.5, 0, 1⟩ := rfl
lemma lget_pushup_16 : lget pushupFrame 16 = ⟨0.5, 0.5, 0, 1⟩ := rfl
lemma lget_pushup_23 : lget pushupFrame 23 = ⟨0.5, 0.5, 0, 1⟩ := rfl
lemma lget_pushup_24 : lget pushupFrame 24 = ⟨0.5, 0.5, 0, 1⟩ := rfl
lemma lget_pushup_25 : lget pushupFrame 25 = ⟨0.7, 0.5, 0, 1⟩ := rfl
lemma lget_pushup_26 : lget pushupFrame 26 = ⟨0.7, 0.5, 0, 1⟩ := rfl

lemma pushupFrame_length : ¬ pushupFrame.length < 33 := by
  norm_num [pushupFrame]

lemma pushupFrame_elbow :
    calculateAngle ⟨0.3, 0.5, 0, 1⟩ ⟨0.4, 0.5, 0, 1⟩ ⟨0.5, 0.5, 0, 1⟩ = 180 :=
  calculateAngle_horiz (by norm_num) (by norm_num)

lemma pushupFrame_posture_angle :
    calculateAngle ⟨0.1, 0.5, 0, 1⟩ ⟨0.3, 0.5, 0, 1⟩ ⟨0.5, 0.5, 0, 1⟩ = 180 :=
  calculateAngle_horiz (by norm_num) (by norm_num)

lemma pushupFrame_hip_angle :
    calculateAngle ⟨0.3, 0.5, 0, 1⟩ ⟨0.5, 0.5, 0, 1⟩ ⟨0.7, 0.5, 0, 1⟩ = 180 :=
  calculateAngle_horiz (by norm_num) (by norm_num)

lemma pushupFrame_posture : calculatePosture pushupFrame = 100 := by
  simp only [calculatePosture, lget_pushup_8, lget_pushup_12, lget_pushup_24,
    pushupFrame_posture_angle]
  norm_num [sup_eq_right]

lemma pushupFrame_bracing : pushupBracing pushupFrame = 100 := by
  simp only [pushupBracing, lget_pushup_11, lget_pushup_12, lget_pushup_23,
    lget_pushup_24, lget_pushup_25, lget_pushup_26, pushupFrame_hip_angle]
  norm_num

lemma pushupFrame_pillars :
    pushupPillars pushupFrame =
      { stability := 100, rom := 100, posture := 100, efficiency := 100,
        bracing := 100, total := 0 } := by
  rw [pushupPillars, pushupFrame_posture, pushupFrame_bracing]

/-- C7 counterexample: on a straight-body frame the Push Up analyzer
returns `score = 100` while `breakdown.total` stays 0 — the analyzer
never overwrites the breakdown's `total` field with the weighted sum, so
the claim as stated is false. -/
theorem C7_breakdown_total_not_overwritten :
    (PushUpAnalyzer.analyze pushupRepInit pushupFrame (some 0) 0).2.score = 100 ∧
    (PushUpAnalyzer.analyze pushupRepInit pushupFrame (some 0) 0).2.breakdown.total = 0 ∧
    (PushUpAnalyzer.analyze pushupRepInit pushupFrame (some 0) 0).2.breakdown.total ≠
      (PushUpAnalyzer.analyze pushupRepInit pushupFrame (some 0) 0).2.score := by
  have hs : (PushUpAnalyzer.analyze pushupRepInit pushupFrame (some 0) 0).2.score = 100 := by
    rw [PushUpAnalyzer.analyze, if_neg pushupFrame_length]
    norm_num [pushupFrame_pillars]
  have ht : (PushUpAnalyzer.analyze pushupRepInit pushupFrame (some 0) 0).2.breakdown.total
      = 0 := by
    rw [PushUpAnalyzer.analyze, if_neg pushupFrame_length]
    norm_num [pushupFrame_pillars]
  exact ⟨hs, ht, by rw [hs, ht]; norm_num⟩

/-- C7 amended: on every valid frame, the returned score is the fixed
weighted sum of the pillar scores with weights 0.3 (ROM), 0.2
(stability), 0.3 (bracing), 0.2 (posture) summing to 1.0, but the
breakdown's `total` field is NOT overwritten with that sum: it keeps the
scorer's 0 placeholder. -/
theorem C7_score_weighted_sum_amended (s : RepState ℝ) (lm : List PoseLandmark)
    (ts : Option ℝ) (w : ℝ) (hlen : ¬ lm.length < 33) :
    (PushUpAnalyzer.analyze s lm ts w).2.score
      = (pushupPillars lm).rom * 0.3 + (pushupPillars lm).stability * 0.2
        + (pushupPillars lm).bracing * 0.3 + (pushupPillars lm).posture * 0.2 ∧
    (PushUpAnalyzer.analyze s lm ts w).2.breakdown.total = 0 ∧
    ((0.3 : ℝ) + 0.2 + 0.3 + 0.2) = 1 := by
  refine ⟨?_, ?_, by norm_num⟩ <;>
    · rw [PushUpAnalyzer.analyze, if_neg hlen]
      try simp [pushupPillars]

/-- Witness for C7 amended: the straight-body frame. -/
theorem C7_score_weighted_sum_amended_witness :
    (PushUpAnalyzer.analyze pushupRepInit pushupFrame (some 0) 0).2.breakdown.total = 0 :=
  (C7_score_weighted_sum_amended pushupRepInit pushupFrame (some 0) 0
    pushupFrame_length).2.1

end

end SmartTrainer
